import Mathlib

/-!
# Aratta gateway — verification of the natural-language specification

Shallow embedding of the routing, resilience and schema components of the
Aratta AI-provider gateway (Python), together with theorems settling the
frozen specification claims.  Machine time is modelled as `Int` seconds,
Python `float` confidences as `Rat`, Python dicts as association lists, and
the side effects of the request handler as an explicit event trace.
-/

namespace Aratta

/-- `pat` occurs as a contiguous run inside the list. -/
def listContainsInfix (pat : List Char) : List Char → Bool
  | [] => pat.isEmpty
  | x :: xs => pat.isPrefixOf (x :: xs) || listContainsInfix pat xs

/-- Case-sensitive substring test, mirroring the Python `in` operator on
strings (`pat in hay`). -/
def strContains (hay pat : String) : Bool :=
  listContainsInfix pat.toList hay.toList

/-- Lookup in an association list modelling a Python dict
(`d.get(k)` / `k in d`). -/
def lookupStr (m : List (String × String)) (k : String) : Option String :=
  (m.find? (fun kv => kv.1 == k)).map (fun kv => kv.2)

/-- Break a character list at the first colon. -/
def breakAtColon : List Char → Option (List Char × List Char)
  | [] => none
  | c :: cs =>
    if c = ':' then some ([], cs)
    else
      match breakAtColon cs with
      | some lr => some (c :: lr.1, lr.2)
      | none => none

/-- Python `s.split(":", 1)` guarded by `":" in s`: `none` when the string
holds no colon, otherwise the part before the first colon and everything
after it. -/
def splitFirstColon (s : String) : Option (String × String) :=
  (breakAtColon s.toList).map (fun lr => (String.mk lr.1, String.mk lr.2))

/-- Python `s.lower()` (ASCII case folding suffices for the model names and
substrings involved). -/
def strToLower (s : String) : String :=
  String.mk (s.toList.map Char.toLower)

/-! ## Model resolver — `aratta/config.py`, `ArattaConfig.resolve_model` -/

/-- The slice of `ArattaConfig` that `resolve_model` reads. -/
structure ResolverConfig where
  model_aliases : List (String × String)
  default_provider : String
deriving Repr, DecidableEq

/-- `ArattaConfig.resolve_model` (config.py lines 215-252): alias lookup,
then split on the first colon, then case-insensitive substring inference,
then the default provider. -/
def resolve_model (cfg : ResolverConfig) (aliasStr : String) : String × String :=
  -- 1. Check aliases
  match lookupStr cfg.model_aliases aliasStr with
  | some resolved =>
    match splitFirstColon resolved with
    | some pm => pm
    | none => (cfg.default_provider, resolved)
  | none =>
    -- 2. Explicit provider:model
    match splitFirstColon aliasStr with
    | some pm => pm
    | none =>
      -- 3. Infer provider from model name
      let lower := strToLower aliasStr
      if strContains lower "claude" then ("anthropic", aliasStr)
      else if strContains lower "gpt" || strContains lower "o1" ||
              strContains lower "o3" || strContains lower "o4" ||
              strContains lower "codex" then ("openai", aliasStr)
      else if strContains lower "gemini" then ("google", aliasStr)
      else if strContains lower "grok" then ("xai", aliasStr)
      else if strContains lower "llama" || strContains lower "mistral" ||
              strContains lower "qwen" || strContains lower "phi" ||
              strContains lower "deepseek" then ("ollama", aliasStr)
      -- 4. Fall back to default
      else (cfg.default_provider, aliasStr)

/-- `DEFAULT_MODEL_ALIASES` from config.py. -/
def DEFAULT_MODEL_ALIASES : List (String × String) :=
  [("fast", "google:gemini-3-flash-preview"),
   ("reason", "anthropic:claude-opus-4-5-20251101"),
   ("code", "anthropic:claude-sonnet-4-5-20250929"),
   ("cheap", "google:gemini-2.5-flash-lite"),
   ("local", "ollama:llama3.1:8b"),
   ("sovereign", "ollama:llama3.1:8b"),
   ("opus", "anthropic:claude-opus-4-5-20251101"),
   ("sonnet", "anthropic:claude-sonnet-4-5-20250929"),
   ("haiku", "anthropic:claude-haiku-4-5-20251001"),
   ("gpt", "openai:gpt-4.1"),
   ("gpt-mini", "openai:gpt-4.1-mini"),
   ("o3", "openai:o3"),
   ("gemini", "google:gemini-3-flash-preview"),
   ("gemini-pro", "google:gemini-3-pro-preview"),
   ("grok", "xai:grok-4-1-fast"),
   ("embed", "openai:text-embedding-3-large"),
   ("embed-small", "openai:text-embedding-3-small")]

/-- The provider names configured by default
(`DEFAULT_CLOUD_PROVIDERS` and `DEFAULT_LOCAL_PROVIDERS` in config.py). -/
def DEFAULT_PROVIDER_NAMES : List String :=
  ["anthropic", "openai", "google", "xai", "ollama", "vllm", "llamacpp"]

/-- The default `ArattaConfig` resolver slice: built-in aliases with
`default_provider = "ollama"`. -/
def defaultResolverConfig : ResolverConfig :=
  { model_aliases := DEFAULT_MODEL_ALIASES, default_provider := "ollama" }

/-! ## Circuit breaker — `aratta/resilience/circuit_breaker.py` -/

/-- `CircuitState` enum. -/
inductive CircuitState where
  | CLOSED
  | OPEN
  | HALF_OPEN
deriving Repr, DecidableEq

/-- `CircuitBreakerState` dataclass; datetimes are seconds (`Int`),
`_half_open_successes` is spelled without the leading underscore. -/
structure CircuitBreakerState where
  provider : String
  state : CircuitState := .CLOSED
  failure_count : Nat := 0
  consecutive_failures : Nat := 0
  last_failure : Option Int := none
  last_failure_error : Option String := none
  success_count : Nat := 0
  last_success : Option Int := none
  opened_at : Option Int := none
  last_state_change : Int := 0
  failure_threshold : Nat := 5
  recovery_timeout_seconds : Int := 60
  success_threshold : Nat := 3
  half_open_successes : Nat := 0
deriving Repr, DecidableEq

/-- `CircuitBreaker._transition`: set the new state, stamp the change time,
stamp `opened_at` on OPEN, clear `opened_at` and the failure counter on
CLOSED. -/
def cbTransition (now : Int) (s : CircuitBreakerState) (new : CircuitState) :
    CircuitBreakerState :=
  let s1 := { s with state := new, last_state_change := now }
  match new with
  | .OPEN => { s1 with opened_at := some now }
  | .CLOSED => { s1 with opened_at := none, failure_count := 0 }
  | .HALF_OPEN => s1

/-- `CircuitBreaker.can_execute`: CLOSED always passes; OPEN passes (moving
to HALF_OPEN) once `recovery_timeout_seconds` have elapsed since
`opened_at`; the fall-through returns `state == HALF_OPEN`. -/
def can_execute (now : Int) (s : CircuitBreakerState) :
    Bool × CircuitBreakerState :=
  match s.state, s.opened_at with
  | .CLOSED, _ => (true, s)
  | .OPEN, some t =>
    if now - t ≥ s.recovery_timeout_seconds then
      (true, cbTransition now s .HALF_OPEN)
    else (false, s)
  | .OPEN, none => (false, s)
  | .HALF_OPEN, _ => (true, s)

/-- `CircuitBreaker.record_success`. -/
def record_success (now : Int) (s : CircuitBreakerState) :
    CircuitBreakerState :=
  let s1 := { s with success_count := s.success_count + 1,
                     last_success := some now,
                     consecutive_failures := 0 }
  match s1.state with
  | .HALF_OPEN =>
    let s2 := { s1 with half_open_successes := s1.half_open_successes + 1 }
    if s2.half_open_successes ≥ s2.success_threshold then
      { cbTransition now s2 .CLOSED with half_open_successes := 0 }
    else s2
  | .CLOSED => { s1 with failure_count := 0 }
  | .OPEN => s1

/-- `CircuitBreaker.record_failure`; the returned `Bool` is `should_heal`. -/
def record_failure (now : Int) (err : String) (s : CircuitBreakerState) :
    Bool × CircuitBreakerState :=
  let s1 := { s with failure_count := s.failure_count + 1,
                     consecutive_failures := s.consecutive_failures + 1,
                     last_failure := some now,
                     last_failure_error := some err }
  match s1.state with
  | .HALF_OPEN => (false, { cbTransition now s1 .OPEN with half_open_successes := 0 })
  | .CLOSED =>
    if s1.failure_count ≥ s1.failure_threshold then
      (true, cbTransition now s1 .OPEN)
    else (false, s1)
  | .OPEN => (false, s1)

/-! ## Circuit breaker transition lemmas -/

theorem cb_closed_fail_below (s : CircuitBreakerState) (now : Int) (e : String)
    (h1 : s.state = .CLOSED) (h2 : s.failure_count + 1 < s.failure_threshold) :
    record_failure now e s =
      (false, { s with failure_count := s.failure_count + 1,
                       consecutive_failures := s.consecutive_failures + 1,
                       last_failure := some now,
                       last_failure_error := some e }) := by
  simp only [record_failure, h1]
  rw [if_neg (by omega)]

theorem cb_closed_fail_at (s : CircuitBreakerState) (now : Int) (e : String)
    (h1 : s.state = .CLOSED) (h2 : s.failure_count + 1 ≥ s.failure_threshold) :
    (record_failure now e s).1 = true ∧
    (record_failure now e s).2.state = .OPEN ∧
    (record_failure now e s).2.opened_at = some now := by
  simp only [record_failure, h1]
  rw [if_pos (by omega)]
  simp [cbTransition]

theorem cb_should_heal_iff (s : CircuitBreakerState) (now : Int) (e : String) :
    (record_failure now e s).1 = true ↔
      (s.state = .CLOSED ∧ s.failure_count + 1 ≥ s.failure_threshold) := by
  rcases hst : s.state with _ | _ | _ <;> simp only [record_failure, hst]
  · by_cases hth : s.failure_threshold ≤ s.failure_count + 1
    · rw [if_pos (by omega)]; simpa using hth
    · rw [if_neg (by omega)]; simpa using hth
  · simp
  · simp

theorem cb_closed_success (s : CircuitBreakerState) (now : Int)
    (h1 : s.state = .CLOSED) :
    (record_success now s).state = .CLOSED ∧
    (record_success now s).failure_count = 0 := by
  simp only [record_success, h1]
  simp

theorem cb_open_can_execute (s : CircuitBreakerState) (now t : Int)
    (h1 : s.state = .OPEN) (h2 : s.opened_at = some t) :
    ((can_execute now s).1 = true ↔ now - t ≥ s.recovery_timeout_seconds) ∧
    (now - t ≥ s.recovery_timeout_seconds →
      (can_execute now s).2.state = .HALF_OPEN) ∧
    (now - t < s.recovery_timeout_seconds → can_execute now s = (false, s)) := by
  simp only [can_execute, h1, h2]
  refine ⟨?_, ?_, ?_⟩
  · by_cases hel : now - t ≥ s.recovery_timeout_seconds
    · rw [if_pos hel]; simpa using hel
    · rw [if_neg hel]; simpa using hel
  · intro hel; rw [if_pos hel]; simp [cbTransition]
  · intro hel; rw [if_neg (by omega)]

theorem cb_half_open_success (s : CircuitBreakerState) (now : Int)
    (h1 : s.state = .HALF_OPEN) :
    (s.half_open_successes + 1 ≥ s.success_threshold →
      (record_success now s).state = .CLOSED ∧
      (record_success now s).half_open_successes = 0) ∧
    (s.half_open_successes + 1 < s.success_threshold →
      (record_success now s).state = .HALF_OPEN ∧
      (record_success now s).half_open_successes = s.half_open_successes + 1) := by
  simp only [record_success, h1]
  constructor
  · intro hth; rw [if_pos (by omega)]; simp [cbTransition]
  · intro hth; rw [if_neg (by omega)]; exact ⟨rfl, rfl⟩

theorem cb_half_open_failure (s : CircuitBreakerState) (now : Int) (e : String)
    (h1 : s.state = .HALF_OPEN) :
    (record_failure now e s).1 = false ∧
    (record_failure now e s).2.state = .OPEN ∧
    (record_failure now e s).2.opened_at = some now := by
  simp only [record_failure, h1]
  simp [cbTransition]

theorem cb_closed_can_execute (s : CircuitBreakerState) (now : Int)
    (h1 : s.state = .CLOSED) : can_execute now s = (true, s) := by
  simp only [can_execute, h1]

theorem cb_half_open_can_execute (s : CircuitBreakerState) (now : Int)
    (h1 : s.state = .HALF_OPEN) : can_execute now s = (true, s) := by
  rcases ho : s.opened_at <;> simp only [can_execute, h1, ho]

/-- C2: the circuit breaker performs exactly the transitions of the spec's
state table and no others.  In order: (1) failure in CLOSED below threshold
only increments the counter; (2) failure in CLOSED reaching the threshold
moves to OPEN and stamps `opened_at`; (3) `record_failure` returns
`should_heal = true` exactly at the CLOSED-to-OPEN transition (so only once
per opening); (4) success in CLOSED resets the failure counter to 0;
(5) `can_execute` in OPEN returns true and moves to HALF_OPEN iff
`recovery_timeout_seconds` have elapsed since `opened_at`, otherwise false
with no transition; (6) success in HALF_OPEN closes the circuit after
`success_threshold` consecutive successes; (7) failure in HALF_OPEN returns
to OPEN and restamps `opened_at`; (8)-(9) `can_execute` in CLOSED and
HALF_OPEN passes without a transition. -/
theorem claim_C2_circuit_state_table :
    (∀ (s : CircuitBreakerState) (now : Int) (e : String),
      s.state = .CLOSED → s.failure_count + 1 < s.failure_threshold →
      record_failure now e s =
        (false, { s with failure_count := s.failure_count + 1,
                         consecutive_failures := s.consecutive_failures + 1,
                         last_failure := some now,
                         last_failure_error := some e })) ∧
    (∀ (s : CircuitBreakerState) (now : Int) (e : String),
      s.state = .CLOSED → s.failure_count + 1 ≥ s.failure_threshold →
      (record_failure now e s).1 = true ∧
      (record_failure now e s).2.state = .OPEN ∧
      (record_failure now e s).2.opened_at = some now) ∧
    (∀ (s : CircuitBreakerState) (now : Int) (e : String),
      (record_failure now e s).1 = true ↔
        (s.state = .CLOSED ∧ s.failure_count + 1 ≥ s.failure_threshold)) ∧
    (∀ (s : CircuitBreakerState) (now : Int),
      s.state = .CLOSED →
      (record_success now s).state = .CLOSED ∧
      (record_success now s).failure_count = 0) ∧
    (∀ (s : CircuitBreakerState) (now t : Int),
      s.state = .OPEN → s.opened_at = some t →
      ((can_execute now s).1 = true ↔ now - t ≥ s.recovery_timeout_seconds) ∧
      (now - t ≥ s.recovery_timeout_seconds →
        (can_execute now s).2.state = .HALF_OPEN) ∧
      (now - t < s.recovery_timeout_seconds →
        can_execute now s = (false, s))) ∧
    (∀ (s : CircuitBreakerState) (now : Int),
      s.state = .HALF_OPEN →
      (s.half_open_successes + 1 ≥ s.success_threshold →
        (record_success now s).state = .CLOSED ∧
        (record_success now s).half_open_successes = 0) ∧
      (s.half_open_successes + 1 < s.success_threshold →
        (record_success now s).state = .HALF_OPEN ∧
        (record_success now s).half_open_successes =
          s.half_open_successes + 1)) ∧
    (∀ (s : CircuitBreakerState) (now : Int) (e : String),
      s.state = .HALF_OPEN →
      (record_failure now e s).1 = false ∧
      (record_failure now e s).2.state = .OPEN ∧
      (record_failure now e s).2.opened_at = some now) ∧
    (∀ (s : CircuitBreakerState) (now : Int),
      s.state = .CLOSED → can_execute now s = (true, s)) ∧
    (∀ (s : CircuitBreakerState) (now : Int),
      s.state = .HALF_OPEN → can_execute now s = (true, s)) :=
  ⟨cb_closed_fail_below, cb_closed_fail_at, cb_should_heal_iff,
   cb_closed_success, cb_open_can_execute, cb_half_open_success,
   cb_half_open_failure, cb_closed_can_execute, cb_half_open_can_execute⟩

/-- A fresh circuit record for a provider, as `CircuitBreaker._get` builds it
with the default thresholds. -/
def cbFresh : CircuitBreakerState := { provider := "anthropic" }

/-- A circuit record one failure short of the default threshold. -/
def cbAlmost : CircuitBreakerState := { provider := "anthropic", failure_count := 4 }

/-- An open circuit record, opened at time 0. -/
def cbOpened : CircuitBreakerState :=
  { provider := "anthropic", state := .OPEN, opened_at := some 0 }

/-- Witness for C2: the state table evaluated on concrete circuit records. -/
theorem claim_C2_circuit_state_table_witness :
    (record_failure 1 "boom" cbFresh).1 = false ∧
    (record_failure 1 "boom" cbAlmost).1 = true ∧
    (record_failure 1 "boom" cbAlmost).2.state = .OPEN ∧
    (can_execute 60 cbOpened).1 = true ∧
    (can_execute 60 cbOpened).2.state = .HALF_OPEN ∧
    can_execute 30 cbOpened = (false, cbOpened) := by
  refine ⟨?_, ?_, ?_, ?_, ?_, ?_⟩
  · rw [claim_C2_circuit_state_table.1 cbFresh 1 "boom" rfl (by decide)]
  · exact (claim_C2_circuit_state_table.2.1 cbAlmost 1 "boom" rfl (by decide)).1
  · exact (claim_C2_circuit_state_table.2.1 cbAlmost 1 "boom" rfl (by decide)).2.1
  · exact (claim_C2_circuit_state_table.2.2.2.2.1 cbOpened 60 0 rfl rfl).1.mpr (by decide)
  · exact (claim_C2_circuit_state_table.2.2.2.2.1 cbOpened 60 0 rfl rfl).2.1 (by decide)
  · exact (claim_C2_circuit_state_table.2.2.2.2.1 cbOpened 30 0 rfl rfl).2.2 (by decide)

/-- C6: `resolve_model` on the bare model string containing a colon.  The
code splits on the first colon without checking that the left side is a
known provider name: `"llama3.1:8b"` resolves to the nonexistent provider
`"llama3.1"` with model `"8b"`, although `"llama3.1"` is not a configured
provider and the substring rule `"llama"` would have inferred `ollama` —
contradicting `resolve_model`'s own docstring, which promises
`"llama3.1:8b" → infer local provider`. -/
theorem claim_C6_resolver_colon_divergence :
    resolve_model defaultResolverConfig "llama3.1:8b" = ("llama3.1", "8b") ∧
    DEFAULT_PROVIDER_NAMES.contains "llama3.1" = false ∧
    strContains (strToLower "llama3.1:8b") "llama" = true :=
  ⟨by decide, by decide, by decide⟩

/-! ## Health monitor — `aratta/resilience/health.py` -/

/-- Generic association-list lookup (Python dict `get`). -/
def alookup {β : Type} (m : List (String × β)) (k : String) : Option β :=
  (m.find? (fun kv => kv.1 == k)).map (fun kv => kv.2)

/-- Association-list update (Python dict `d[k] = v`). -/
def aset {β : Type} (m : List (String × β)) (k : String) (v : β) :
    List (String × β) :=
  (k, v) :: m.filter (fun kv => kv.1 != k)

/-- `ErrorType` enum (health.py). -/
inductive ErrorType where
  | SCHEMA_MISMATCH
  | UNKNOWN_FIELD
  | DEPRECATED_FIELD
  | STREAMING_FORMAT
  | TOOL_SCHEMA
  | CONNECTION_ERROR
  | TIMEOUT
  | RATE_LIMIT
  | AUTH_ERROR
  | UNKNOWN
deriving Repr, DecidableEq

/-- `ErrorType.from_error`: ordered substring classification of the
stringified exception. -/
def ErrorType.from_error (msg : String) : ErrorType :=
  let s := strToLower msg
  if strContains s "timeout" then .TIMEOUT
  else if strContains s "connection" || strContains s "refused" ||
          strContains s "reset" then .CONNECTION_ERROR
  else if strContains s "429" || strContains s "rate" then .RATE_LIMIT
  else if strContains s "401" || strContains s "unauthorized" then .AUTH_ERROR
  else if strContains s "schema" || strContains s "validation" then .SCHEMA_MISMATCH
  else if strContains s "tool" || strContains s "function" then .TOOL_SCHEMA
  else .UNKNOWN

/-- `HEALABLE` kind set. -/
def HEALABLE : List ErrorType :=
  [.SCHEMA_MISMATCH, .UNKNOWN_FIELD, .DEPRECATED_FIELD, .STREAMING_FORMAT, .TOOL_SCHEMA]

/-- `TRANSIENT` kind set. -/
def TRANSIENT : List ErrorType :=
  [.RATE_LIMIT, .CONNECTION_ERROR, .TIMEOUT]

/-- `AdapterError` dataclass (timestamps in seconds). -/
structure AdapterError where
  provider : String
  model : String
  error_type : ErrorType
  error_message : String
  timestamp : Int
  consecutive_failures : Nat
deriving Repr, DecidableEq

/-- `HealthMonitor` state; the class attributes are per-instance fields here
because the server overrides them from configuration. -/
structure HealthMonitor where
  ERROR_THRESHOLD : Nat := 3
  WINDOW_SECONDS : Int := 300
  COOLDOWN_SECONDS : Int := 600
  MAX_HISTORY : Nat := 100
  error_history : List (String × List AdapterError) := []
  consecutive_failures : List (String × Nat) := []
  healing_in_progress : List String := []
  last_heal_request : List (String × Int) := []
deriving Repr, DecidableEq

/-- The entries of a provider's history that fall inside the sliding window
(`e.timestamp > now - WINDOW_SECONDS`, strict, as in `_should_heal`). -/
def recentErrors (hm : HealthMonitor) (now : Int) (p : String) :
    List AdapterError :=
  ((alookup hm.error_history p).getD []).filter
    (fun e => now - hm.WINDOW_SECONDS < e.timestamp)

/-- `HealthMonitor._should_heal`: not currently healing, cooldown elapsed
(or no previous heal), kind not transient, and enough recent errors. -/
def shouldHeal (hm : HealthMonitor) (now : Int) (err : AdapterError) : Bool :=
  if hm.healing_in_progress.contains err.provider then false
  else if (match alookup hm.last_heal_request err.provider with
           | some last => decide (now - last < hm.COOLDOWN_SECONDS)
           | none => false) then false
  else if TRANSIENT.contains err.error_type then false
  else hm.ERROR_THRESHOLD ≤ (recentErrors hm now err.provider).length

/-- `deque(maxlen=MAX_HISTORY).append`: drop from the left when full. -/
def boundedAppend (maxlen : Nat) (h : List AdapterError) (e : AdapterError) :
    List AdapterError :=
  let h1 := h ++ [e]
  if maxlen < h1.length then h1.drop (h1.length - maxlen) else h1

/-- `HealthMonitor._fire_heal`: mark the provider healing and stamp the
last-heal time (callback invocation itself is external I/O). -/
def fireHeal (hm : HealthMonitor) (now : Int) (p : String) : HealthMonitor :=
  { hm with
    healing_in_progress :=
      if hm.healing_in_progress.contains p then hm.healing_in_progress
      else p :: hm.healing_in_progress,
    last_heal_request := aset hm.last_heal_request p now }

/-- The `AdapterError` entry that `record_error` appends: classified kind,
current timestamp, incremented consecutive-failure counter. -/
def recordErrorEntry (hm : HealthMonitor) (now : Int) (p m msg : String) :
    AdapterError :=
  ⟨p, m, ErrorType.from_error msg, msg, now,
   (alookup hm.consecutive_failures p).getD 0 + 1⟩

/-- The state after `record_error`'s bookkeeping (counter increment and
history append), before the heal decision. -/
def recordErrorUpdate (hm : HealthMonitor) (now : Int) (p m msg : String) :
    HealthMonitor :=
  { hm with
    consecutive_failures := aset hm.consecutive_failures p
      ((alookup hm.consecutive_failures p).getD 0 + 1),
    error_history := aset hm.error_history p
      (boundedAppend hm.MAX_HISTORY ((alookup hm.error_history p).getD [])
        (recordErrorEntry hm now p m msg)) }

/-- `HealthMonitor.record_error`; the returned `Bool` says whether the heal
callbacks were fired. -/
def record_error (hm : HealthMonitor) (now : Int) (p m msg : String) :
    Bool × HealthMonitor :=
  let entry := recordErrorEntry hm now p m msg
  let hm1 := recordErrorUpdate hm now p m msg
  if shouldHeal hm1 now entry then (true, fireHeal hm1 now p)
  else (false, hm1)

/-- `HealthMonitor.record_success`: reset the consecutive-failure counter. -/
def monitorRecordSuccess (hm : HealthMonitor) (p : String) : HealthMonitor :=
  { hm with consecutive_failures := aset hm.consecutive_failures p 0 }

/-- `HealthMonitor.handle_heal_complete`: drop the provider from the healing
set; on success clear its history and counters. -/
def handle_heal_complete (hm : HealthMonitor) (p : String) (success : Bool) :
    HealthMonitor :=
  let hm1 := { hm with
    healing_in_progress := hm.healing_in_progress.filter (fun q => q != p) }
  if success then
    { hm1 with error_history := aset hm1.error_history p [],
               consecutive_failures := aset hm1.consecutive_failures p 0 }
  else hm1

/-! ## Association-list lemmas -/

theorem find?_key_filter {β : Type} (m : List (String × β)) (k p : String) (h : p ≠ k) :
    (m.filter (fun kv => kv.1 != k)).find? (fun kv => kv.1 == p) =
      m.find? (fun kv => kv.1 == p) := by
  induction m with
  | nil => rfl
  | cons kv t ih =>
    by_cases h1 : kv.1 = k
    · have hkp : (k == p) = false := by
        rw [beq_eq_false_iff_ne]; exact fun hk => h hk.symm
      simp [List.filter_cons, h1, List.find?_cons, hkp, ih]
    · have hk : (kv.1 != k) = true := by simp [h1]
      by_cases hp : kv.1 = p
      · have hp2 : (kv.1 == p) = true := by simp [hp]
        simp [List.filter_cons, hk, List.find?_cons, hp2]
      · have hp2 : (kv.1 == p) = false := by simp [hp]
        simp [List.filter_cons, hk, List.find?_cons, hp2, ih]

theorem alookup_aset_self {β : Type} (m : List (String × β)) (k : String) (v : β) :
    alookup (aset m k v) k = some v := by
  simp [alookup, aset, List.find?_cons]

theorem alookup_aset_ne {β : Type} (m : List (String × β)) (k p : String) (v : β)
    (h : p ≠ k) : alookup (aset m k v) p = alookup m p := by
  have hp : ((k, v).1 == p) = false := by
    simp only []; rw [beq_eq_false_iff_ne]; exact fun hk => h hk.symm
  simp only [alookup, aset, List.find?_cons, hp]
  rw [find?_key_filter m k p h]

/-! ## Heal-gating lemmas -/

theorem shouldHeal_iff (hm : HealthMonitor) (now : Int) (err : AdapterError) :
    shouldHeal hm now err = true ↔
      (hm.healing_in_progress.contains err.provider = false ∧
       (match alookup hm.last_heal_request err.provider with
        | some last => hm.COOLDOWN_SECONDS ≤ now - last
        | none => True) ∧
       TRANSIENT.contains err.error_type = false ∧
       hm.ERROR_THRESHOLD ≤ (recentErrors hm now err.provider).length) := by
  unfold shouldHeal
  rcases hl : alookup hm.last_heal_request err.provider with _ | last <;>
    simp only [hl] <;> split_ifs with h1 h2 h3 <;> simp_all

theorem record_error_fst (hm : HealthMonitor) (now : Int) (p m msg : String) :
    ((record_error hm now p m msg).1 = true ↔
      shouldHeal (recordErrorUpdate hm now p m msg) now
        (recordErrorEntry hm now p m msg) = true) := by
  simp only [record_error]
  split <;> simp_all

theorem recentErrors_update (hm : HealthMonitor) (now : Int) (p m msg : String) :
    recentErrors (recordErrorUpdate hm now p m msg) now p =
      (boundedAppend hm.MAX_HISTORY ((alookup hm.error_history p).getD [])
        (recordErrorEntry hm now p m msg)).filter
        (fun e => now - hm.WINDOW_SECONDS < e.timestamp) := by
  simp [recentErrors, recordErrorUpdate, alookup_aset_self]

theorem record_error_fires_iff (hm : HealthMonitor) (now : Int) (p m msg : String) :
    (record_error hm now p m msg).1 = true ↔
      (hm.healing_in_progress.contains p = false ∧
       (match alookup hm.last_heal_request p with
        | some last => hm.COOLDOWN_SECONDS ≤ now - last
        | none => True) ∧
       TRANSIENT.contains (ErrorType.from_error msg) = false ∧
       hm.ERROR_THRESHOLD ≤
         ((boundedAppend hm.MAX_HISTORY ((alookup hm.error_history p).getD [])
             (recordErrorEntry hm now p m msg)).filter
           (fun e => now - hm.WINDOW_SECONDS < e.timestamp)).length) := by
  rw [record_error_fst, shouldHeal_iff]
  have hprov : (recordErrorEntry hm now p m msg).provider = p := rfl
  have htype : (recordErrorEntry hm now p m msg).error_type =
      ErrorType.from_error msg := rfl
  rw [hprov, htype, recentErrors_update]
  rfl

/-! ## Monitor operation traces and the cooldown guarantee -/

/-- Operations observable on the health monitor. -/
inductive MonitorOp where
  | recErr (now : Int) (provider model msg : String)
  | recSucc (provider : String)
  | healDone (provider : String) (success : Bool)

/-- Run a sequence of monitor operations, collecting the heal-callback
firings as (provider, time) pairs. -/
def runMonitor (hm : HealthMonitor) :
    List MonitorOp → HealthMonitor × List (String × Int)
  | [] => (hm, [])
  | .recErr now p m msg :: rest =>
    let r := record_error hm now p m msg
    let rec2 := runMonitor r.2 rest
    (rec2.1, (if r.1 then [(p, now)] else []) ++ rec2.2)
  | .recSucc p :: rest => runMonitor (monitorRecordSuccess hm p) rest
  | .healDone p ok :: rest => runMonitor (handle_heal_complete hm p ok) rest

/-- The firing times recorded for one provider. -/
def firesFor (p : String) (fires : List (String × Int)) : List Int :=
  (fires.filter (fun f => f.1 == p)).map (fun f => f.2)

theorem record_error_cooldown_const (hm : HealthMonitor) (now : Int) (p m msg : String) :
    (record_error hm now p m msg).2.COOLDOWN_SECONDS = hm.COOLDOWN_SECONDS := by
  simp only [record_error]; split <;> rfl

theorem healDone_cooldown_const (hm : HealthMonitor) (p : String) (ok : Bool) :
    (handle_heal_complete hm p ok).COOLDOWN_SECONDS = hm.COOLDOWN_SECONDS := by
  simp only [handle_heal_complete]; split <;> rfl

theorem healDone_last_heal_const (hm : HealthMonitor) (p : String) (ok : Bool) :
    (handle_heal_complete hm p ok).last_heal_request = hm.last_heal_request := by
  simp only [handle_heal_complete]; split <;> rfl

theorem record_error_last_heal_fire (hm : HealthMonitor) (now : Int) (p m msg : String)
    (h : (record_error hm now p m msg).1 = true) :
    (record_error hm now p m msg).2.last_heal_request =
      aset hm.last_heal_request p now := by
  simp only [record_error] at h ⊢
  split at h
  next hc => rw [if_pos hc]; rfl
  next hc => simp at h

theorem record_error_last_heal_nofire (hm : HealthMonitor) (now : Int) (p m msg : String)
    (h : (record_error hm now p m msg).1 = false) :
    (record_error hm now p m msg).2.last_heal_request = hm.last_heal_request := by
  simp only [record_error] at h ⊢
  split at h
  next hc => simp at h
  next hc => rw [if_neg hc]; rfl

theorem record_error_fire_cooldown (hm : HealthMonitor) (now : Int) (p m msg : String)
    (t : Int) (hl : alookup hm.last_heal_request p = some t)
    (h : (record_error hm now p m msg).1 = true) :
    hm.COOLDOWN_SECONDS ≤ now - t := by
  have h2 := (record_error_fires_iff hm now p m msg).mp h
  have h3 := h2.2.1
  rw [hl] at h3
  exact h3

theorem fires_lb : ∀ (ops : List MonitorOp) (hm : HealthMonitor) (p : String) (t : Int),
    0 ≤ hm.COOLDOWN_SECONDS →
    alookup hm.last_heal_request p = some t →
    ∀ x ∈ firesFor p (runMonitor hm ops).2, t + hm.COOLDOWN_SECONDS ≤ x := by
  intro ops
  induction ops with
  | nil => intro hm p t hc hl x hx; simp [runMonitor, firesFor] at hx
  | cons op rest ih =>
    intro hm p t hc hl x hx
    match op with
    | .recSucc q =>
      exact ih (monitorRecordSuccess hm q) p t hc hl x hx
    | .healDone q ok =>
      have hc2 : 0 ≤ (handle_heal_complete hm q ok).COOLDOWN_SECONDS := by
        rw [healDone_cooldown_const]; exact hc
      have hl2 : alookup (handle_heal_complete hm q ok).last_heal_request p = some t := by
        rw [healDone_last_heal_const]; exact hl
      have := ih (handle_heal_complete hm q ok) p t hc2 hl2 x hx
      rwa [healDone_cooldown_const] at this
    | .recErr now q m msg =>
      simp only [runMonitor, firesFor, List.filter_append, List.map_append,
        List.mem_append] at hx
      have hcr : (record_error hm now q m msg).2.COOLDOWN_SECONDS = hm.COOLDOWN_SECONDS :=
        record_error_cooldown_const hm now q m msg
      rcases hfire : (record_error hm now q m msg).1 with _ | _
      · rw [hfire] at hx
        rw [if_neg Bool.false_ne_true] at hx
        rcases hx with hx | hx
        · simp at hx
        · have hl2 : alookup (record_error hm now q m msg).2.last_heal_request p = some t := by
            rw [record_error_last_heal_nofire hm now q m msg hfire]; exact hl
          have := ih (record_error hm now q m msg).2 p t (by rw [hcr]; exact hc) hl2 x
            (by simpa [firesFor] using hx)
          rwa [hcr] at this
      · rw [hfire] at hx
        simp only [if_pos rfl] at hx
        by_cases hq : q = p
        · subst hq
          have hcool : hm.COOLDOWN_SECONDS ≤ now - t :=
            record_error_fire_cooldown hm now q m msg t hl hfire
          rcases hx with hx | hx
          · simp at hx
            omega
          · have hl2 : alookup (record_error hm now q m msg).2.last_heal_request q = some now := by
              rw [record_error_last_heal_fire hm now q m msg hfire]
              exact alookup_aset_self _ _ _
            have := ih (record_error hm now q m msg).2 q now (by rw [hcr]; exact hc) hl2 x
              (by simpa [firesFor] using hx)
            rw [hcr] at this
            omega
        · rcases hx with hx | hx
          · simp at hx
            exact absurd hx.1.symm hq
          · have hl2 : alookup (record_error hm now q m msg).2.last_heal_request p = some t := by
              rw [record_error_last_heal_fire hm now q m msg hfire]
              rw [alookup_aset_ne _ _ _ _ (fun hpq => hq hpq.symm)]
              exact hl
            have := ih (record_error hm now q m msg).2 p t (by rw [hcr]; exact hc) hl2 x
              (by simpa [firesFor] using hx)
            rwa [hcr] at this

theorem fires_pairwise (cd : Int) (hcd : 0 ≤ cd) :
    ∀ (ops : List MonitorOp) (hm : HealthMonitor) (p : String),
    hm.COOLDOWN_SECONDS = cd →
    List.Pairwise (fun t1 t2 => t1 + cd ≤ t2) (firesFor p (runMonitor hm ops).2) := by
  intro ops
  induction ops with
  | nil => intro hm p hc; simp [runMonitor, firesFor]
  | cons op rest ih =>
    intro hm p hc
    match op with
    | .recSucc q => exact ih (monitorRecordSuccess hm q) p hc
    | .healDone q ok =>
      exact ih (handle_heal_complete hm q ok) p
        (by rw [healDone_cooldown_const]; exact hc)
    | .recErr now q m msg =>
      simp only [runMonitor, firesFor, List.filter_append, List.map_append]
      rcases hfire : (record_error hm now q m msg).1 with _ | _
      · rw [if_neg Bool.false_ne_true]
        simp only [List.filter_nil, List.map_nil, List.nil_append]
        have := ih (record_error hm now q m msg).2 p
          (by rw [record_error_cooldown_const]; exact hc)
        simpa [firesFor] using this
      · rw [if_pos rfl]
        by_cases hq : q = p
        · subst hq
          have hfilter : List.filter (fun f => f.1 == q) [(q, now)] = [(q, now)] := by simp
          rw [hfilter]
          simp only [List.map_cons, List.map_nil, List.cons_append, List.nil_append]
          rw [List.pairwise_cons]
          constructor
          · intro x hx
            have hl2 : alookup (record_error hm now q m msg).2.last_heal_request q = some now := by
              rw [record_error_last_heal_fire hm now q m msg hfire]
              exact alookup_aset_self _ _ _
            have hcd2 : 0 ≤ (record_error hm now q m msg).2.COOLDOWN_SECONDS := by
              rw [record_error_cooldown_const, hc]; exact hcd
            have := fires_lb rest (record_error hm now q m msg).2 q now hcd2 hl2 x
              (by simpa [firesFor] using hx)
            rwa [record_error_cooldown_const, hc] at this
          · have := ih (record_error hm now q m msg).2 q
              (by rw [record_error_cooldown_const]; exact hc)
            simpa [firesFor] using this
        · have hfilter : List.filter (fun f => f.1 == p) [(q, now)] = [] := by
            simp [hq]
          rw [hfilter]
          simp only [List.map_nil, List.nil_append]
          have := ih (record_error hm now q m msg).2 p
            (by rw [record_error_cooldown_const]; exact hc)
          simpa [firesFor] using this

/-- C5: `record_error` fires a heal callback iff the provider is not
currently healing, the cooldown since the last heal request has elapsed (or
there was none), the classified kind is not TRANSIENT, and at least
ERROR_THRESHOLD history entries (the fresh one included, as the code
counts) fall inside the WINDOW_SECONDS sliding window.  Consequently, over
any operation sequence, the heal firing times recorded for one provider are
pairwise at least COOLDOWN_SECONDS apart. -/
theorem claim_C5_heal_gating :
    (∀ (hm : HealthMonitor) (now : Int) (p m msg : String),
      (record_error hm now p m msg).1 = true ↔
        (hm.healing_in_progress.contains p = false ∧
         (match alookup hm.last_heal_request p with
          | some last => hm.COOLDOWN_SECONDS ≤ now - last
          | none => True) ∧
         TRANSIENT.contains (ErrorType.from_error msg) = false ∧
         hm.ERROR_THRESHOLD ≤
           ((boundedAppend hm.MAX_HISTORY ((alookup hm.error_history p).getD [])
               (recordErrorEntry hm now p m msg)).filter
             (fun e => now - hm.WINDOW_SECONDS < e.timestamp)).length)) ∧
    (∀ (cd : Int) (ops : List MonitorOp) (hm : HealthMonitor) (p : String),
      0 ≤ cd → hm.COOLDOWN_SECONDS = cd →
      List.Pairwise (fun t1 t2 => t1 + cd ≤ t2)
        (firesFor p (runMonitor hm ops).2)) :=
  ⟨record_error_fires_iff,
   fun cd ops hm p hcd hc => fires_pairwise cd hcd ops hm p hc⟩

/-- A monitor whose error threshold is one, as the server can configure. -/
def hmDemo : HealthMonitor := { ERROR_THRESHOLD := 1 }

/-- Witness for C5: on a fresh monitor with threshold one, a non-transient
error fires the heal callback, and a concrete two-error trace has pairwise
cooldown-separated firing times. -/
theorem claim_C5_heal_gating_witness :
    (record_error hmDemo 0 "anthropic" "m" "schema mismatch").1 = true ∧
    List.Pairwise (fun t1 t2 => t1 + (600 : Int) ≤ t2)
      (firesFor "anthropic"
        (runMonitor hmDemo
          [.recErr 0 "anthropic" "m" "schema mismatch",
           .recErr 100 "anthropic" "m" "schema mismatch"]).2) := by
  constructor
  · exact (claim_C5_heal_gating.1 hmDemo 0 "anthropic" "m" "schema mismatch").mpr
      ⟨by decide, trivial, by decide, by decide⟩
  · exact claim_C5_heal_gating.2 600
      [.recErr 0 "anthropic" "m" "schema mismatch",
       .recErr 100 "anthropic" "m" "schema mismatch"]
      hmDemo "anthropic" (by decide) rfl

/-! ## Gateway chat routing — `aratta/server.py` (chat endpoint and
`_get_provider_with_fallback`).  Request-body translation and upstream
transport are external; the model keeps the routing and error dispatch and
records breaker/monitor side effects as an explicit event trace. -/

/-- `ProviderConfig` (config.py), restricted to the fields the routing and
availability logic reads. -/
structure ProviderConfig where
  name : String
  base_url : String := ""
  api_key_env : Option String := none
  default_model : String
  priority : Nat
  enabled : Bool := true
deriving Repr, DecidableEq

/-- `ProviderConfig.is_available` against an environment map
(`bool(os.getenv(var))`: an unset or empty variable is falsy). -/
def is_available (env : List (String × String)) (cfg : ProviderConfig) : Bool :=
  if !cfg.enabled then false
  else
    match cfg.api_key_env with
    | some v =>
      match lookupStr env v with
      | some s => s != ""
      | none => false
    | none => true

/-- The slice of `ArattaConfig` that the chat endpoint reads; `providers`
lists local then cloud providers, in the Python dict-merge order. -/
structure GatewayConfig where
  providers : List ProviderConfig
  model_aliases : List (String × String)
  default_provider : String
  enable_fallback : Bool
deriving Repr, DecidableEq

/-- `ArattaConfig.get_provider`. -/
def get_provider_cfg (cfg : GatewayConfig) (name : String) : Option ProviderConfig :=
  cfg.providers.find? (fun c => c.name == name)

/-- Stable insertion keeping already-placed entries with smaller-or-equal
priority in front (so the overall sort is stable, like Python `sorted`). -/
def insertByPriority (c : ProviderConfig) : List ProviderConfig → List ProviderConfig
  | [] => [c]
  | d :: ds =>
    if d.priority ≤ c.priority then d :: insertByPriority c ds
    else c :: d :: ds

/-- Stable sort by ascending priority (Python `sorted(..., key=priority)`). -/
def sortByPriority (l : List ProviderConfig) : List ProviderConfig :=
  l.foldl (fun acc c => insertByPriority c acc) []

/-- `ArattaConfig.get_available_providers`: available providers sorted by
ascending priority. -/
def get_available_providers (env : List (String × String)) (cfg : GatewayConfig) :
    List String :=
  (sortByPriority (cfg.providers.filter (is_available env))).map (fun c => c.name)

/-- Outcome of one adapter `chat` call, as the endpoint's `except` ladder
distinguishes them: `RateLimitError` first, then any other `ProviderError`
(with its optional upstream status), then any other exception. -/
inductive ChatOutcome where
  | ok (respTag : String)
  | rateLimit (msg : String)
  | providerErr (msg : String) (status : Option Nat)
  | otherExc (msg : String)
deriving Repr, DecidableEq

/-- What the chat endpoint returns to the client. -/
inductive ChatResult where
  | success (respTag : String)
  | httpError (status : Nat) (msg : String)
deriving Repr, DecidableEq

/-- Whether a handler result is a success response. -/
def ChatResult.isSuccess : ChatResult → Bool
  | .success _ => true
  | .httpError _ _ => false

/-- Breaker/monitor side effects and outbound calls of one request. -/
inductive GwEvent where
  | callChat (provider model : String)
  | breakerFailure (provider : String)
  | breakerSuccess (provider : String)
  | monitorError (provider model : String)
  | monitorSuccess (provider : String)
deriving Repr, DecidableEq

/-- The fallback walk of `_get_provider_with_fallback` (server.py lines
124-138): first constructible available provider other than the failed one,
substituting that provider's default model. -/
def walkFallback (cfg : GatewayConfig) (construct : String → Option (Nat × String))
    (primary model_id : String) : List String → Except (Nat × String) (String × String)
  | [] => .error (503, "No available providers")
  | q :: rest =>
    if q == primary then walkFallback cfg construct primary model_id rest
    else
      match construct q with
      | none =>
        let fm := match get_provider_cfg cfg q with
                  | some c => c.default_model
                  | none => model_id
        .ok (q, fm)
      | some _ => walkFallback cfg construct primary model_id rest

/-- `_get_provider_with_fallback`: resolve the model, try to construct the
primary provider, and only on a construction failure walk the availability
list (when fallback is enabled).  `construct p = none` means `_get_provider`
succeeds for `p`; `some (status, msg)` is the HTTPException it raises. -/
def get_provider_with_fallback (cfg : GatewayConfig) (env : List (String × String))
    (construct : String → Option (Nat × String)) (model_str : String) :
    Except (Nat × String) (String × String) :=
  let pm := resolve_model ⟨cfg.model_aliases, cfg.default_provider⟩ model_str
  match construct pm.1 with
  | none => .ok pm
  | some e =>
    if !cfg.enable_fallback then .error e
    else walkFallback cfg construct pm.1 pm.2 (get_available_providers env cfg)

/-- The chat endpoint (server.py lines 301-351): resolve with fallback,
circuit gate, call the adapter, record outcomes, translate errors to HTTP
statuses.  `circuit_on`/`monitor_on` model whether the breaker and monitor
singletons exist; `canExec` is the breaker's `can_execute`. -/
def chat_handler (cfg : GatewayConfig) (env : List (String × String))
    (construct : String → Option (Nat × String)) (circuit_on : Bool)
    (canExec : String → Bool) (monitor_on : Bool)
    (chatFn : String → String → ChatOutcome) (model_str : String) :
    ChatResult × List GwEvent :=
  match get_provider_with_fallback cfg env construct model_str with
  | .error e => (.httpError e.1 e.2, [])
  | .ok (p, m) =>
    if circuit_on && !canExec p then
      (.httpError 503 "Provider circuit open", [])
    else
      match chatFn p m with
      | .ok tag =>
        (.success tag,
         [.callChat p m] ++ (if circuit_on then [.breakerSuccess p] else [])
           ++ (if monitor_on then [.monitorSuccess p] else []))
      | .rateLimit msg =>
        (.httpError 429 msg,
         [.callChat p m] ++ (if monitor_on then [.monitorError p m] else []))
      | .providerErr msg st =>
        (.httpError (st.getD 502) msg,
         [.callChat p m] ++ (if circuit_on then [.breakerFailure p] else [])
           ++ (if monitor_on then [.monitorError p m] else []))
      | .otherExc msg =>
        (.httpError 500 msg,
         [.callChat p m] ++ (if monitor_on then [.monitorError p m] else []))

/-- The string form of the `RateLimitError` that `BaseProvider._handle_error`
raises on a 429 (`str(e)` is `"[provider] Rate limit exceeded."`). -/
def rateLimitErrStr (provider : String) : String :=
  "[" ++ provider ++ "] Rate limit exceeded."

/-! ## Rate-limit classification lemmas -/

theorem listContainsInfix_append_right (pat x y : List Char)
    (h : listContainsInfix pat y = true) :
    listContainsInfix pat (x ++ y) = true := by
  induction x with
  | nil => simpa using h
  | cons c cs ih =>
    simp only [List.cons_append, listContainsInfix, Bool.or_eq_true]
    exact Or.inr ih

theorem rateLimit_classified_transient (p : String) :
    TRANSIENT.contains (ErrorType.from_error (rateLimitErrStr p)) = true := by
  have hrate : strContains (strToLower (rateLimitErrStr p)) "rate" = true := by
    have hdata : (rateLimitErrStr p).toList =
        ("[" ++ p).toList ++ "] Rate limit exceeded.".toList := by
      simp [rateLimitErrStr, String.toList]
    unfold strContains strToLower
    rw [hdata, List.map_append]
    apply listContainsInfix_append_right
    decide
  unfold ErrorType.from_error
  dsimp only
  split_ifs with h1 h2 h3 <;> first | decide | simp [hrate] at h3

theorem transient_no_fire (hm : HealthMonitor) (now : Int) (p m msg : String)
    (h : TRANSIENT.contains (ErrorType.from_error msg) = true) :
    (record_error hm now p m msg).1 = false := by
  rcases hf : (record_error hm now p m msg).1 with _ | _
  · rfl
  · have h2 := (record_error_fires_iff hm now p m msg).mp hf
    rw [h2.2.2.1] at h
    exact absurd h (by simp)

/-! ## Routing lemmas -/

theorem chat_provider_error_dispatch (cfg : GatewayConfig) (env : List (String × String))
    (construct : String → Option (Nat × String)) (canExec : String → Bool)
    (chatFn : String → String → ChatOutcome) (s p m msg : String) (st : Option Nat)
    (hget : get_provider_with_fallback cfg env construct s = .ok (p, m))
    (hcan : canExec p = true)
    (hchat : chatFn p m = .providerErr msg st) :
    chat_handler cfg env construct true canExec true chatFn s =
      (.httpError (st.getD 502) msg,
       [.callChat p m, .breakerFailure p, .monitorError p m]) := by
  unfold chat_handler
  rw [hget]
  simp [hcan, hchat]

theorem chat_rate_limit_dispatch (cfg : GatewayConfig) (env : List (String × String))
    (construct : String → Option (Nat × String)) (canExec : String → Bool)
    (chatFn : String → String → ChatOutcome) (s p m msg : String)
    (hget : get_provider_with_fallback cfg env construct s = .ok (p, m))
    (hcan : canExec p = true)
    (hchat : chatFn p m = .rateLimit msg) :
    chat_handler cfg env construct true canExec true chatFn s =
      (.httpError 429 msg, [.callChat p m, .monitorError p m]) := by
  unfold chat_handler
  rw [hget]
  simp [hcan, hchat]

theorem walkFallback_first (cfg : GatewayConfig)
    (construct : String → Option (Nat × String)) (primary model_id : String) :
    ∀ (l : List String) (q : String),
    (l.filter (fun x => x != primary)).find? (fun x => (construct x).isNone) = some q →
    walkFallback cfg construct primary model_id l =
      .ok (q, match get_provider_cfg cfg q with
              | some c => c.default_model
              | none => model_id) := by
  intro l
  induction l with
  | nil => intro q h; simp at h
  | cons x rest ih =>
    intro q h
    by_cases hx : x = primary
    · have hfx : (x != primary) = false := by simp [hx]
      rw [List.filter_cons, hfx] at h
      simp only [walkFallback, if_pos (by simp [hx] : (x == primary) = true)]
      exact ih q (by simpa using h)
    · have hfx : (x != primary) = true := by simp [hx]
      rw [List.filter_cons, hfx] at h
      simp only [if_true] at h
      have hxp : (x == primary) = false := by simp [hx]
      rcases hcx : construct x with _ | e
      · rw [List.find?_cons_of_pos _ (by simp [hcx])] at h
        injection h with hq
        subst hq
        simp only [walkFallback, hxp, Bool.false_eq_true, if_false, hcx]
      · rw [List.find?_cons_of_neg _ (by simp [hcx])] at h
        simp only [walkFallback, hxp, Bool.false_eq_true, if_false, hcx]
        exact ih q h

theorem walkFallback_none (cfg : GatewayConfig)
    (construct : String → Option (Nat × String)) (primary model_id : String) :
    ∀ (l : List String),
    (l.filter (fun x => x != primary)).find? (fun x => (construct x).isNone) = none →
    walkFallback cfg construct primary model_id l =
      .error (503, "No available providers") := by
  intro l
  induction l with
  | nil => intro h; rfl
  | cons x rest ih =>
    intro h
    by_cases hx : x = primary
    · have hfx : (x != primary) = false := by simp [hx]
      rw [List.filter_cons, hfx] at h
      simp only [walkFallback, if_pos (by simp [hx] : (x == primary) = true)]
      exact ih (by simpa using h)
    · have hfx : (x != primary) = true := by simp [hx]
      rw [List.filter_cons, hfx] at h
      simp only [if_true] at h
      have hxp : (x == primary) = false := by simp [hx]
      rcases hcx : construct x with _ | e
      · rw [List.find?_cons_of_pos _ (by simp [hcx])] at h
        exact absurd h (by simp)
      · rw [List.find?_cons_of_neg _ (by simp [hcx])] at h
        simp only [walkFallback, hxp, Bool.false_eq_true, if_false, hcx]
        exact ih h

theorem get_provider_fallback_construct (cfg : GatewayConfig)
    (env : List (String × String)) (construct : String → Option (Nat × String))
    (s : String) (e : Nat × String) (q : String)
    (hc : construct (resolve_model ⟨cfg.model_aliases, cfg.default_provider⟩ s).1 = some e)
    (hf : cfg.enable_fallback = true)
    (hfind : ((get_available_providers env cfg).filter
        (fun x => x != (resolve_model ⟨cfg.model_aliases, cfg.default_provider⟩ s).1)).find?
          (fun x => (construct x).isNone) = some q) :
    get_provider_with_fallback cfg env construct s =
      .ok (q, match get_provider_cfg cfg q with
              | some c => c.default_model
              | none => (resolve_model ⟨cfg.model_aliases, cfg.default_provider⟩ s).2) := by
  unfold get_provider_with_fallback
  dsimp only
  rw [hc]
  simp only [hf, Bool.not_true, Bool.false_eq_true, if_false]
  exact walkFallback_first cfg construct _ _ _ q hfind

theorem get_provider_fallback_exhausted (cfg : GatewayConfig)
    (env : List (String × String)) (construct : String → Option (Nat × String))
    (s : String) (e : Nat × String)
    (hc : construct (resolve_model ⟨cfg.model_aliases, cfg.default_provider⟩ s).1 = some e)
    (hf : cfg.enable_fallback = true)
    (hfind : ((get_available_providers env cfg).filter
        (fun x => x != (resolve_model ⟨cfg.model_aliases, cfg.default_provider⟩ s).1)).find?
          (fun x => (construct x).isNone) = none) :
    get_provider_with_fallback cfg env construct s =
      .error (503, "No available providers") := by
  unfold get_provider_with_fallback
  dsimp only
  rw [hc]
  simp only [hf, Bool.not_true, Bool.false_eq_true, if_false]
  exact walkFallback_none cfg construct _ _ _ hfind

/-- Spec scenario 2: provider A (priority 1) primary, provider B
(priority 2) secondary; an alias maps to A's default model. -/
def cfgAB : GatewayConfig :=
  { providers := [
      { name := "A", default_model := "a-model", priority := 1 },
      { name := "B", default_model := "b-model", priority := 2 }],
    model_aliases := [("A-default-alias", "A:a-model")],
    default_provider := "A",
    enable_fallback := true }

/-- A's chat call fails with a 502 `ProviderError`; B's chat call succeeds. -/
def chatFnAB : String → String → ChatOutcome :=
  fun p _ =>
    if p == "A" then .providerErr "Bad gateway" (some 502)
    else .ok "response-from-B"

/-- Counterexample for C1: with fallback enabled, both providers
constructible and circuits closed, A's chat call failing with a 502
ProviderError makes the endpoint surface HTTP 502 after recording the
failure — the emitted trace holds no call to B and the result is not a
success, contradicting the claim that the router attempts the remaining
providers and returns the first successful response. -/
theorem claim_C1_fallback_counterexample :
    (chat_handler cfgAB [] (fun _ => none) true (fun _ => true) true chatFnAB
        "A-default-alias").1.isSuccess = false ∧
    chat_handler cfgAB [] (fun _ => none) true (fun _ => true) true chatFnAB
        "A-default-alias" =
      (.httpError 502 "Bad gateway",
       [.callChat "A" "a-model", .breakerFailure "A", .monitorError "A" "a-model"]) :=
  ⟨by decide, by decide⟩

/-- C1 (amended): on a non-rate-limit `ProviderError` from the chat call the
gateway records the failure in breaker and monitor and surfaces the error
with its status (502 default), calling no other provider; fallback across
the availability list (ascending priority, skipping the failed provider,
substituting the fallback's default model) happens only when the resolved
primary provider cannot be constructed, and when no fallback is
constructible the endpoint returns 503. -/
theorem claim_C1_routing_amended :
    (∀ (cfg : GatewayConfig) (env : List (String × String))
       (construct : String → Option (Nat × String)) (canExec : String → Bool)
       (chatFn : String → String → ChatOutcome) (s p m msg : String) (st : Option Nat),
      get_provider_with_fallback cfg env construct s = .ok (p, m) →
      canExec p = true →
      chatFn p m = .providerErr msg st →
      chat_handler cfg env construct true canExec true chatFn s =
        (.httpError (st.getD 502) msg,
         [.callChat p m, .breakerFailure p, .monitorError p m])) ∧
    (∀ (cfg : GatewayConfig) (env : List (String × String))
       (construct : String → Option (Nat × String)) (s : String)
       (e : Nat × String) (q : String),
      construct (resolve_model ⟨cfg.model_aliases, cfg.default_provider⟩ s).1 = some e →
      cfg.enable_fallback = true →
      ((get_available_providers env cfg).filter
        (fun x => x != (resolve_model ⟨cfg.model_aliases, cfg.default_provider⟩ s).1)).find?
          (fun x => (construct x).isNone) = some q →
      get_provider_with_fallback cfg env construct s =
        .ok (q, match get_provider_cfg cfg q with
                | some c => c.default_model
                | none => (resolve_model ⟨cfg.model_aliases, cfg.default_provider⟩ s).2)) ∧
    (∀ (cfg : GatewayConfig) (env : List (String × String))
       (construct : String → Option (Nat × String)) (s : String) (e : Nat × String),
      construct (resolve_model ⟨cfg.model_aliases, cfg.default_provider⟩ s).1 = some e →
      cfg.enable_fallback = true →
      ((get_available_providers env cfg).filter
        (fun x => x != (resolve_model ⟨cfg.model_aliases, cfg.default_provider⟩ s).1)).find?
          (fun x => (construct x).isNone) = none →
      get_provider_with_fallback cfg env construct s =
        .error (503, "No available providers")) :=
  ⟨chat_provider_error_dispatch, get_provider_fallback_construct,
   get_provider_fallback_exhausted⟩

/-- A constructor map under which provider A cannot be built. -/
def constructAFails : String → Option (Nat × String) :=
  fun p => if p == "A" then some (404, "not configured") else none

/-- Witness for the amended C1: the ProviderError path surfaces 502 with the
recorded failure and single call, and a construction failure of A falls
back to B with B's default model. -/
theorem claim_C1_routing_amended_witness :
    chat_handler cfgAB [] (fun _ => none) true (fun _ => true) true chatFnAB
        "A-default-alias" =
      (.httpError 502 "Bad gateway",
       [.callChat "A" "a-model", .breakerFailure "A", .monitorError "A" "a-model"]) ∧
    get_provider_with_fallback cfgAB [] constructAFails "A-default-alias" =
      .ok ("B", "b-model") := by
  constructor
  · have h := claim_C1_routing_amended.1 cfgAB [] (fun _ => none) (fun _ => true)
      chatFnAB "A-default-alias" "A" "a-model" "Bad gateway" (some 502)
      rfl rfl (by decide)
    exact h
  · have h := claim_C1_routing_amended.2.1 cfgAB [] constructAFails "A-default-alias"
      (404, "not configured") "B" rfl rfl rfl
    exact h

/-- C4: a `RateLimitError` from the selected provider's chat call is
surfaced as HTTP 429 with only a monitor record (no breaker record, no
further provider call); its canonical message is classified `RATE_LIMIT`,
which is TRANSIENT for every provider name; and a transient-classified
error never fires the heal callback. -/
theorem claim_C4_rate_limit_429 :
    (∀ (cfg : GatewayConfig) (env : List (String × String))
       (construct : String → Option (Nat × String)) (canExec : String → Bool)
       (chatFn : String → String → ChatOutcome) (s p m msg : String),
      get_provider_with_fallback cfg env construct s = .ok (p, m) →
      canExec p = true →
      chatFn p m = .rateLimit msg →
      chat_handler cfg env construct true canExec true chatFn s =
        (.httpError 429 msg, [.callChat p m, .monitorError p m])) ∧
    (∀ p : String,
      TRANSIENT.contains (ErrorType.from_error (rateLimitErrStr p)) = true) ∧
    (∀ (hm : HealthMonitor) (now : Int) (p m msg : String),
      TRANSIENT.contains (ErrorType.from_error msg) = true →
      (record_error hm now p m msg).1 = false) :=
  ⟨chat_rate_limit_dispatch, rateLimit_classified_transient, transient_no_fire⟩

/-- A's chat call hits the upstream rate limit; B would succeed. -/
def chatFnRL : String → String → ChatOutcome :=
  fun p _ =>
    if p == "A" then .rateLimit (rateLimitErrStr "A")
    else .ok "response-from-B"

/-- Witness for C4: in the two-provider scenario, A's 429 is surfaced to the
client with only a monitor record and no call to B, the message classifies
as a transient kind, and recording it fires no heal. -/
theorem claim_C4_rate_limit_429_witness :
    chat_handler cfgAB [] (fun _ => none) true (fun _ => true) true chatFnRL
        "A-default-alias" =
      (.httpError 429 (rateLimitErrStr "A"),
       [.callChat "A" "a-model", .monitorError "A" "a-model"]) ∧
    TRANSIENT.contains (ErrorType.from_error (rateLimitErrStr "A")) = true ∧
    (record_error { } 0 "A" "a-model" (rateLimitErrStr "A")).1 = false := by
  refine ⟨?_, ?_, ?_⟩
  · exact claim_C4_rate_limit_429.1 cfgAB [] (fun _ => none) (fun _ => true)
      chatFnRL "A-default-alias" "A" "a-model" (rateLimitErrStr "A")
      rfl rfl (by decide)
  · exact claim_C4_rate_limit_429.2.1 "A"
  · exact claim_C4_rate_limit_429.2.2 { } 0 "A" "a-model" (rateLimitErrStr "A")
      (by decide)

/-! ## Reload manager — `aratta/resilience/reload_manager.py`.  File system
state is folded into the manager: `sources` maps a provider to its live
adapter source content and每 `AdapterVersion.backup_content` holds the
backed-up file's content (standing for `backup_path` plus the file).
Python float confidences are rationals; `verify_callback` is a pure
predicate (an exception inside the callback makes the code treat the
verification as failed, which a `false` result models). -/

/-- The fields of a fix-proposal dict that `apply_fix` reads, with the
`dict.get` defaults. -/
structure FixProposal where
  fix_type : String := "unknown"
  confidence : Rat := 0
  change_summary : String := "Unknown change"
  fix_code : Option String := none
deriving Repr, DecidableEq

/-- `FixStatus` enum. -/
inductive FixStatus where
  | PENDING
  | APPLIED
  | VERIFIED
  | FAILED
  | ROLLED_BACK
  | REJECTED
deriving Repr, DecidableEq

/-- `AdapterVersion` dataclass (backup path replaced by the backup's
content). -/
structure AdapterVersion where
  version : Nat
  provider : String
  timestamp : Int := 0
  backup_content : String
  change_summary : String
  fix_proposal : Option FixProposal := none
  status : FixStatus := .APPLIED
  verification_result : Option String := none
deriving Repr, DecidableEq

/-- `FixApplication` dataclass. -/
structure FixApplication where
  success : Bool
  provider : String
  version : Nat
  message : String
  code_changed : Bool := false
  requires_restart : Bool := false
  verification_passed : Option Bool := none
deriving Repr, DecidableEq

/-- `MAX_VERSIONS` constant. -/
def MAX_VERSIONS : Nat := 10

/-- `ReloadManager` state. -/
structure ReloadManager where
  auto_apply : Bool := false
  auto_apply_threshold : Rat := 85 / 100
  versions : List (String × List AdapterVersion) := []
  current_version : List (String × Nat) := []
  pending_fixes : List (String × FixProposal) := []
  sources : List (String × String) := []
deriving Repr, DecidableEq

/-- `ReloadManager._backup_adapter`: copy the live source into a fresh
versioned backup, trim the history to `MAX_VERSIONS` (evicting the oldest),
and return the new version record.  `none` models the
`FileNotFoundError` when the adapter path cannot be resolved. -/
def backup_adapter (rm : ReloadManager) (p cs : String) :
    Option (AdapterVersion × ReloadManager) :=
  match alookup rm.sources p with
  | none => none
  | some src =>
    let current := (alookup rm.current_version p).getD 0
    let version : AdapterVersion :=
      { version := current + 1, provider := p, backup_content := src,
        change_summary := cs, status := .PENDING }
    let vs := (alookup rm.versions p).getD [] ++ [version]
    let vs2 := if MAX_VERSIONS < vs.length then vs.drop 1 else vs
    some (version, { rm with versions := aset rm.versions p vs2 })

/-- `ReloadManager._apply_code_patch`: conservative — both branches return
`false` by design (the patch is only logged for human review). -/
def apply_code_patch (rm : ReloadManager) (p code : String) : Bool :=
  match alookup rm.sources p with
  | none => false
  | some _ => false

/-- Replace the most recently appended version record (Python mutates the
aliased `version` object in place). -/
def setLastVersion (rm : ReloadManager) (p : String) (v : AdapterVersion) :
    ReloadManager :=
  { rm with
    versions := aset rm.versions p
      (((alookup rm.versions p).getD []).dropLast ++ [v]) }

/-- `ReloadManager._rollback`: restore the backup of `to_version` over the
live source and pin the current version; `none` models the `ValueError`
when that version is not in the history. -/
def rollback (rm : ReloadManager) (p : String) (to_version : Nat) :
    Option ReloadManager :=
  match ((alookup rm.versions p).getD []).find? (fun v => v.version == to_version) with
  | none => none
  | some target =>
    let rm1 :=
      match alookup rm.sources p with
      | some _ => { rm with sources := aset rm.sources p target.backup_content }
      | none => rm
    some { rm1 with current_version := aset rm1.current_version p to_version }

/-- `ReloadManager.apply_fix`: queue below the confidence threshold, else
backup, dispatch on `fix_type` (never writing a model patch), verify, and
commit or roll back. -/
def apply_fix (rm : ReloadManager) (p : String) (prop : FixProposal)
    (verify : Option (String → Bool)) : FixApplication × ReloadManager :=
  -- Queue for review if below threshold
  if !rm.auto_apply && prop.confidence < rm.auto_apply_threshold then
    ({ success := false, provider := p,
       version := (alookup rm.current_version p).getD 0,
       message := "Queued for review" },
     { rm with pending_fixes := aset rm.pending_fixes p prop })
  else
    match backup_adapter rm p prop.change_summary with
    | none =>
      -- the FileNotFoundError lands in the catch-all `except`
      ({ success := false, provider := p,
         version := (alookup rm.current_version p).getD 0,
         message := "Failed: adapter not found" }, rm)
    | some (version0, rm1) =>
      let version := { version0 with fix_proposal := some prop }
      let rm1 := setLastVersion rm1 p version
      if prop.fix_type == "no_fix_needed" then
        let version := { version with
          status := .VERIFIED, verification_result := some "No fix needed" }
        ({ success := true, provider := p, version := version.version,
           message := "No fix needed" },
         setLastVersion rm1 p version)
      else
        let code_changed :=
          if prop.fix_type == "code_patch" || prop.fix_type == "workaround" then
            match prop.fix_code with
            | some code => apply_code_patch rm1 p code
            | none => false
          else false
        -- (module hot-reload happens only when code_changed, which never holds)
        let verified :=
          match verify with
          | some f => f p
          | none => true
        if verified then
          let version := { version with
            status := .VERIFIED, verification_result := some "Passed" }
          ({ success := true, provider := p, version := version.version,
             message := "Fix applied and verified", code_changed := code_changed,
             verification_passed := some true },
           { setLastVersion rm1 p version with
             current_version := aset rm1.current_version p version.version })
        else
          match rollback rm1 p (version.version - 1) with
          | none =>
            -- ValueError from _rollback lands in the catch-all `except`
            ({ success := false, provider := p,
               version := (alookup rm1.current_version p).getD 0,
               message := "Failed: version not found" }, rm1)
          | some rm2 =>
            let version := { version with
              status := .ROLLED_BACK,
              verification_result := some "Failed, rolled back" }
            ({ success := false, provider := p, version := version.version - 1,
               message := "Verification failed, rolled back",
               verification_passed := some false },
             setLastVersion rm2 p version)

/-- `ReloadManager.get_pending_fixes` (a copy of the dict). -/
def get_pending_fixes (rm : ReloadManager) : List (String × FixProposal) :=
  rm.pending_fixes

/-- `ReloadManager.approve_fix`: pop the pending fix, temporarily promote
`auto_apply`, run `apply_fix`, and restore `auto_apply` in `finally`. -/
def approve_fix (rm : ReloadManager) (p : String)
    (verify : Option (String → Bool)) : FixApplication × ReloadManager :=
  match alookup rm.pending_fixes p with
  | none =>
    ({ success := false, provider := p,
       version := (alookup rm.current_version p).getD 0,
       message := "No pending fix" }, rm)
  | some fix =>
    let old := rm.auto_apply
    let rm1 := { rm with
      pending_fixes := rm.pending_fixes.filter (fun kv => kv.1 != p),
      auto_apply := true }
    let res := apply_fix rm1 p fix verify
    (res.1, { res.2 with auto_apply := old })

/-! ## Reload-manager lemmas -/

theorem apply_code_patch_false (rm : ReloadManager) (p code : String) :
    apply_code_patch rm p code = false := by
  unfold apply_code_patch; split <;> rfl

theorem backup_adapter_some (rm : ReloadManager) (p cs : String)
    (v : AdapterVersion) (rm1 : ReloadManager)
    (h : backup_adapter rm p cs = some (v, rm1)) :
    rm1.sources = rm.sources ∧
    alookup rm.sources p = some v.backup_content ∧
    ∃ vs2, rm1.versions = aset rm.versions p vs2 ∧
      ∀ w ∈ vs2, w ∈ (alookup rm.versions p).getD [] ∨ w = v := by
  unfold backup_adapter at h
  rcases hs : alookup rm.sources p with _ | src
  · rw [hs] at h; exact absurd h (by simp)
  · rw [hs] at h
    simp only [Option.some.injEq, Prod.mk.injEq] at h
    obtain ⟨hv, hrm1⟩ := h
    subst hv
    subst hrm1
    refine ⟨rfl, rfl, ?_⟩
    refine ⟨_, rfl, ?_⟩
    intro w hw
    split at hw
    · have hmem := List.mem_of_mem_drop hw
      rcases List.mem_append.mp hmem with h1 | h1
      · exact Or.inl h1
      · exact Or.inr (by simpa using h1)
    · rcases List.mem_append.mp hw with h1 | h1
      · exact Or.inl h1
      · exact Or.inr (by simpa using h1)

theorem setLastVersion_sources (rm : ReloadManager) (p : String) (v : AdapterVersion) :
    (setLastVersion rm p v).sources = rm.sources := rfl

theorem apply_fix_no_patch (rm : ReloadManager) (p : String) (prop : FixProposal)
    (verify : Option (String → Bool))
    (hft : prop.fix_type = "code_patch" ∨ prop.fix_type = "workaround")
    (hinv : ∀ src, alookup rm.sources p = some src →
      ∀ v ∈ (alookup rm.versions p).getD [], v.backup_content = src) :
    (apply_fix rm p prop verify).1.code_changed = false ∧
    alookup (apply_fix rm p prop verify).2.sources p = alookup rm.sources p := by
  have hnofix : (prop.fix_type == "no_fix_needed") = false := by
    rcases hft with h | h <;> rw [h] <;> decide
  unfold apply_fix
  by_cases hq : (!rm.auto_apply && decide (prop.confidence < rm.auto_apply_threshold)) = true
  · rw [if_pos hq]; exact ⟨rfl, rfl⟩
  · rw [if_neg hq]
    rcases hb : backup_adapter rm p prop.change_summary with _ | vr
    · exact ⟨rfl, rfl⟩
    · obtain ⟨version0, rm1⟩ := vr
      obtain ⟨hsrc, hbc, vs2, hvers, hmem⟩ := backup_adapter_some rm p _ version0 rm1 hb
      dsimp only
      rw [hnofix]
      simp only [Bool.false_eq_true, if_false]
      split
      · constructor
        · show (if (prop.fix_type == "code_patch" || prop.fix_type == "workaround") = true then
              match prop.fix_code with
              | some code => apply_code_patch
                  (setLastVersion rm1 p { version0 with fix_proposal := some prop }) p code
              | none => false
            else false) = false
          split
          · rcases prop.fix_code with _ | c
            · rfl
            · exact apply_code_patch_false _ _ _
          · rfl
        · show alookup rm1.sources p = alookup rm.sources p
          rw [hsrc]
      · split
        · refine ⟨rfl, ?_⟩
          show alookup rm1.sources p = alookup rm.sources p
          rw [hsrc]
        · next rm2 hr =>
          refine ⟨rfl, ?_⟩
          unfold rollback at hr
          rcases hf2 : ((alookup (setLastVersion rm1 p
              { version0 with fix_proposal := some prop }).versions p).getD []).find?
              (fun v => v.version == { version0 with fix_proposal := some prop }.version - 1)
              with _ | target
          · rw [hf2] at hr; exact absurd hr (by simp)
          · rw [hf2] at hr
            have htm := List.mem_of_find?_eq_some hf2
            have htl : target.backup_content = version0.backup_content := by
              have hthis : target ∈ vs2.dropLast ++ [{ version0 with fix_proposal := some prop }] := by
                have hlook : alookup (setLastVersion rm1 p
                    { version0 with fix_proposal := some prop }).versions p
                    = some (vs2.dropLast ++ [{ version0 with fix_proposal := some prop }]) := by
                  unfold setLastVersion
                  show alookup (aset rm1.versions p
                    (((alookup rm1.versions p).getD []).dropLast ++
                      [{ version0 with fix_proposal := some prop }])) p = _
                  rw [hvers, alookup_aset_self, alookup_aset_self]
                  simp
                rw [hlook] at htm
                simpa using htm
              rcases List.mem_append.mp hthis with h1 | h1
              · have h2 := List.mem_of_mem_dropLast h1
                rcases hmem target h2 with h3 | h3
                · have h4 := hinv version0.backup_content hbc target h3
                  rw [h4]
                · rw [h3]
              · have h5 : target = { version0 with fix_proposal := some prop } := by
                  simpa using h1
                rw [h5]
            rcases hs2 : alookup (setLastVersion rm1 p
                { version0 with fix_proposal := some prop }).sources p with _ | s2
            · rw [hs2] at hr
              simp only [Option.some.injEq] at hr
              subst hr
              show alookup (setLastVersion rm1 p { version0 with fix_proposal := some prop }).sources p
                = alookup rm.sources p
              rw [setLastVersion_sources, hsrc]
            · rw [hs2] at hr
              simp only [Option.some.injEq] at hr
              subst hr
              show alookup (aset (setLastVersion rm1 p
                  { version0 with fix_proposal := some prop }).sources p target.backup_content) p
                = alookup rm.sources p
              rw [alookup_aset_self, htl, hbc]

theorem apply_fix_queued (rm : ReloadManager) (p : String) (prop : FixProposal)
    (verify : Option (String → Bool))
    (ha : rm.auto_apply = false) (hc : prop.confidence < rm.auto_apply_threshold) :
    apply_fix rm p prop verify =
      ({ success := false, provider := p,
         version := (alookup rm.current_version p).getD 0,
         message := "Queued for review" },
       { rm with pending_fixes := aset rm.pending_fixes p prop }) := by
  unfold apply_fix
  rw [if_pos (by rw [ha]; simpa using hc)]

theorem approve_fix_restores_auto_apply (rm : ReloadManager) (p : String)
    (verify : Option (String → Bool)) :
    ((approve_fix rm p verify).2).auto_apply = rm.auto_apply := by
  rcases h : alookup rm.pending_fixes p with _ | fix <;>
    simp only [approve_fix, h]

theorem approve_fix_no_pending (rm : ReloadManager) (p : String)
    (verify : Option (String → Bool)) (h : alookup rm.pending_fixes p = none) :
    approve_fix rm p verify =
      ({ success := false, provider := p,
         version := (alookup rm.current_version p).getD 0,
         message := "No pending fix" }, rm) := by
  simp only [approve_fix, h]

/-- C3: `apply_fix` never writes a model-generated patch to the adapter
source.  (1) `_apply_code_patch` returns `false` in both of its branches;
(2) for every `code_patch` or `workaround` proposal — given the reachable
invariant that every recorded backup of the provider holds the current
source content — `apply_fix` reports `code_changed = false` and leaves the
provider's adapter source content unchanged (including the
verification-failure rollback path); (3) below the confidence threshold
with `auto_apply` off, the proposal is only queued, surfacing in
`pending_fixes` with no backup and no code change. -/
theorem claim_C3_propose_only :
    (∀ (rm : ReloadManager) (p code : String), apply_code_patch rm p code = false) ∧
    (∀ (rm : ReloadManager) (p : String) (prop : FixProposal)
       (verify : Option (String → Bool)),
      (prop.fix_type = "code_patch" ∨ prop.fix_type = "workaround") →
      (∀ src, alookup rm.sources p = some src →
        ∀ v ∈ (alookup rm.versions p).getD [], v.backup_content = src) →
      ((apply_fix rm p prop verify).1.code_changed = false ∧
       alookup (apply_fix rm p prop verify).2.sources p = alookup rm.sources p)) ∧
    (∀ (rm : ReloadManager) (p : String) (prop : FixProposal)
       (verify : Option (String → Bool)),
      rm.auto_apply = false → prop.confidence < rm.auto_apply_threshold →
      apply_fix rm p prop verify =
        ({ success := false, provider := p,
           version := (alookup rm.current_version p).getD 0,
           message := "Queued for review" },
         { rm with pending_fixes := aset rm.pending_fixes p prop })) :=
  ⟨apply_code_patch_false, apply_fix_no_patch, apply_fix_queued⟩

/-- A manager with auto-apply on and one adapter source, for exercising the
apply path. -/
def rmC3 : ReloadManager :=
  { auto_apply := true, sources := [("anthropic", "SRC")] }

/-- A high-confidence code patch proposal. -/
def propC3 : FixProposal :=
  { fix_type := "code_patch", confidence := 9 / 10, fix_code := some "PATCH" }

/-- A code patch proposal below the approval threshold. -/
def propC3low : FixProposal :=
  { fix_type := "code_patch", confidence := 0, fix_code := some "PATCH" }

/-- A manager with auto-apply off and threshold one, so that any proposal
below full confidence is queued. -/
def rmQueue : ReloadManager :=
  { auto_apply := false, auto_apply_threshold := 1 }

/-- Witness for C3: a concrete code-patch proposal leaves `code_changed`
false and the adapter source intact, and a low-confidence one is queued and
surfaced in `pending_fixes`. -/
theorem claim_C3_propose_only_witness :
    (apply_fix rmC3 "anthropic" propC3 (some (fun _ => true))).1.code_changed = false ∧
    alookup (apply_fix rmC3 "anthropic" propC3 (some (fun _ => true))).2.sources
      "anthropic" = some "SRC" ∧
    alookup (apply_fix rmQueue "anthropic" propC3low none).2.pending_fixes
      "anthropic" = some propC3low := by
  have h := claim_C3_propose_only.2.1 rmC3 "anthropic" propC3 (some (fun _ => true))
    (Or.inl rfl) (by intro src hs v hv; simp [alookup, rmC3] at hv)
  refine ⟨h.1, ?_, ?_⟩
  · rw [h.2]; rfl
  · have h2 := claim_C3_propose_only.2.2 rmQueue "anthropic" propC3low none
      rfl (by decide)
    rw [h2]
    exact alookup_aset_self _ _ _

/-- C10: `approve_fix` always restores `auto_apply` to its prior value (the
temporary promotion is undone on every path), and with no pending fix for
the provider it returns an unsuccessful `FixApplication` and leaves the
manager state untouched. -/
theorem claim_C10_approve_fix_frame :
    (∀ (rm : ReloadManager) (p : String) (verify : Option (String → Bool)),
      ((approve_fix rm p verify).2).auto_apply = rm.auto_apply) ∧
    (∀ (rm : ReloadManager) (p : String) (verify : Option (String → Bool)),
      alookup rm.pending_fixes p = none →
      approve_fix rm p verify =
        ({ success := false, provider := p,
           version := (alookup rm.current_version p).getD 0,
           message := "No pending fix" }, rm)) :=
  ⟨approve_fix_restores_auto_apply, approve_fix_no_pending⟩

/-- A manager with a pending fix, auto-apply off. -/
def rmC10 : ReloadManager :=
  { auto_apply := false,
    pending_fixes := [("anthropic", propC3low)],
    sources := [("anthropic", "SRC")] }

/-- Witness for C10: approving the pending fix leaves `auto_apply` false
afterwards, and approving with nothing pending returns the unchanged
manager with an unsuccessful result. -/
theorem claim_C10_approve_fix_frame_witness :
    ((approve_fix rmC10 "anthropic" none).2).auto_apply = false ∧
    approve_fix ({ } : ReloadManager) "anthropic" none =
      ({ success := false, provider := "anthropic", version := 0,
         message := "No pending fix" }, { }) := by
  constructor
  · exact claim_C10_approve_fix_frame.1 rmC10 "anthropic" none
  · exact claim_C10_approve_fix_frame.2 ({ } : ReloadManager) "anthropic" none rfl

/-! ## Canonical schema — `aratta/core/types.py`.  JSON dicts are modelled
structurally: an `Option` field stands for emit-when-present, and the
opaque JSON payloads (`tool_input`, `tool_result`, `parameters`) are a type
parameter. -/

/-- `Role` enum. -/
inductive Role where
  | SYSTEM
  | USER
  | ASSISTANT
  | TOOL
deriving Repr, DecidableEq

/-- `Role.value`. -/
def Role.value : Role → String
  | .SYSTEM => "system"
  | .USER => "user"
  | .ASSISTANT => "assistant"
  | .TOOL => "tool"

/-- `Role(s)` construction; `none` models the `ValueError` on an unknown
role string. -/
def Role.ofString? (s : String) : Option Role :=
  if s = "system" then some .SYSTEM
  else if s = "user" then some .USER
  else if s = "assistant" then some .ASSISTANT
  else if s = "tool" then some .TOOL
  else none

/-- `ContentType` enum. -/
inductive ContentType where
  | TEXT
  | IMAGE
  | TOOL_USE
  | TOOL_RESULT
  | THINKING
deriving Repr, DecidableEq

/-- `ContentType.value`. -/
def ContentType.value : ContentType → String
  | .TEXT => "text"
  | .IMAGE => "image"
  | .TOOL_USE => "tool_use"
  | .TOOL_RESULT => "tool_result"
  | .THINKING => "thinking"

/-- `ContentType(s)` construction. -/
def ContentType.ofString? (s : String) : Option ContentType :=
  if s = "text" then some .TEXT
  else if s = "image" then some .IMAGE
  else if s = "tool_use" then some .TOOL_USE
  else if s = "tool_result" then some .TOOL_RESULT
  else if s = "thinking" then some .THINKING
  else none

/-- `Content` dataclass; `α` stands for the arbitrary JSON payloads. -/
structure Content (α : Type) where
  type : ContentType
  text : Option String := none
  image_url : Option String := none
  image_base64 : Option String := none
  tool_use_id : Option String := none
  tool_name : Option String := none
  tool_input : Option α := none
  tool_result : Option α := none
deriving Repr, DecidableEq

/-- The dict produced by `Content.to_dict`: a `type` string plus every
field that `is not None`. -/
structure ContentDict (α : Type) where
  type : String
  text : Option String := none
  image_url : Option String := none
  image_base64 : Option String := none
  tool_use_id : Option String := none
  tool_name : Option String := none
  tool_input : Option α := none
  tool_result : Option α := none
deriving Repr, DecidableEq

/-- `Content.to_dict`: emit the enum's value and each non-None field. -/
def Content.to_dict {α : Type} (c : Content α) : ContentDict α :=
  { type := c.type.value, text := c.text, image_url := c.image_url,
    image_base64 := c.image_base64, tool_use_id := c.tool_use_id,
    tool_name := c.tool_name, tool_input := c.tool_input,
    tool_result := c.tool_result }

/-- The block parsing inside `Message.from_dict` (`c.get(...)` per field;
an unknown `type` raises, modelled by `none`). -/
def Content.from_dict {α : Type} (d : ContentDict α) : Option (Content α) :=
  (ContentType.ofString? d.type).map (fun t =>
    { type := t, text := d.text, image_url := d.image_url,
      image_base64 := d.image_base64, tool_use_id := d.tool_use_id,
      tool_name := d.tool_name, tool_input := d.tool_input,
      tool_result := d.tool_result })

/-- `Message` dataclass: scalar string content or a block list. -/
structure Message (α : Type) where
  role : Role
  content : Sum String (List (Content α))
  name : Option String := none
  tool_call_id : Option String := none
deriving Repr, DecidableEq

/-- The dict produced by `Message.to_dict`. -/
structure MessageDict (α : Type) where
  role : String
  content : Sum String (List (ContentDict α))
  name : Option String := none
  tool_call_id : Option String := none
deriving Repr, DecidableEq

/-- `Message.to_dict`: scalar content is passed through, block lists map
`Content.to_dict`; `name` and `tool_call_id` are emitted under Python
truthiness (`if self.name:`), so an empty string is dropped. -/
def Message.to_dict {α : Type} (m : Message α) : MessageDict α :=
  { role := m.role.value,
    content :=
      match m.content with
      | .inl s => .inl s
      | .inr l => .inr (l.map Content.to_dict),
    name :=
      match m.name with
      | some s => if s = "" then none else some s
      | none => none,
    tool_call_id :=
      match m.tool_call_id with
      | some s => if s = "" then none else some s
      | none => none }

/-- The list comprehension inside `Message.from_dict`: parse every block,
any bad block raises (modelled by `none`). -/
def contentListFromDict {α : Type} : List (ContentDict α) → Option (List (Content α))
  | [] => some []
  | d :: ds =>
    match Content.from_dict d with
    | none => none
    | some c =>
      match contentListFromDict ds with
      | none => none
      | some cs => some (c :: cs)

/-- `Message.from_dict`: parse the role, pass scalar content through, parse
every block of a list. -/
def Message.from_dict {α : Type} (d : MessageDict α) : Option (Message α) :=
  match Role.ofString? d.role with
  | none => none
  | some r =>
    match d.content with
    | .inl s =>
      some { role := r, content := .inl s, name := d.name,
             tool_call_id := d.tool_call_id }
    | .inr l =>
      match contentListFromDict l with
      | none => none
      | some cs =>
        some { role := r, content := .inr cs, name := d.name,
               tool_call_id := d.tool_call_id }

/-- `Tool` dataclass (`parameters` is the JSON-Schema payload). -/
structure Tool (α : Type) where
  name : String
  description : String
  parameters : α
deriving Repr, DecidableEq

/-- The dict produced by `Tool.to_dict` (all three fields always). -/
structure ToolDict (α : Type) where
  name : String
  description : String
  parameters : α
deriving Repr, DecidableEq

/-- `Tool.to_dict`. -/
def Tool.to_dict {α : Type} (t : Tool α) : ToolDict α :=
  { name := t.name, description := t.description, parameters := t.parameters }

/-- `Tool.from_dict`. -/
def Tool.from_dict {α : Type} (d : ToolDict α) : Tool α :=
  { name := d.name, description := d.description, parameters := d.parameters }

/-! ## Round-trip lemmas -/

theorem Role.ofString?_value (r : Role) : Role.ofString? r.value = some r := by
  cases r <;> rfl

theorem Content.from_to {α : Type} (c : Content α) :
    Content.from_dict (Content.to_dict c) = some c := by
  rcases c with ⟨t, _, _, _, _, _, _, _⟩
  cases t <;> rfl

theorem content_list_roundtrip {α : Type} (l : List (Content α)) :
    contentListFromDict (l.map Content.to_dict) = some l := by
  induction l with
  | nil => rfl
  | cons c t ih =>
    simp only [List.map_cons, contentListFromDict, Content.from_to, ih]

theorem message_roundtrip {α : Type} (m : Message α)
    (hn : m.name ≠ some "") (ht : m.tool_call_id ≠ some "") :
    Message.from_dict (Message.to_dict m) = some m := by
  rcases m with ⟨r, c, nm, tc⟩
  dsimp only at hn ht
  unfold Message.to_dict Message.from_dict
  dsimp only
  rw [Role.ofString?_value]
  rcases nm with _ | s1
  all_goals rcases tc with _ | s2
  all_goals rcases c with s3 | l
  all_goals dsimp only
  all_goals try rw [content_list_roundtrip]
  all_goals try rw [if_neg (show ¬ (s1 = "") from fun h => hn (by rw [h]))]
  all_goals try rw [if_neg (show ¬ (s2 = "") from fun h => ht (by rw [h]))]

theorem tool_roundtrip {α : Type} (t : Tool α) :
    Tool.from_dict (Tool.to_dict t) = t := rfl

/-- A message whose optional `name` is present but empty: `to_dict` drops
it (Python truthiness), so `from_dict` cannot restore it. -/
def msgEmptyName : Message Unit :=
  { role := .USER, content := .inl "hi", name := some "" }

/-- Counterexample for C8: the round trip fails on a canonical message
whose `name` is the empty string — `to_dict` omits a falsy `name`, and
`from_dict` returns `name = None`. -/
theorem claim_C8_roundtrip_counterexample :
    Message.from_dict (Message.to_dict msgEmptyName) ≠ some msgEmptyName ∧
    Message.from_dict (Message.to_dict msgEmptyName) =
      some { role := .USER, content := .inl "hi" } :=
  ⟨by decide, by decide⟩

/-- C8 (amended): `Message.from_dict ∘ Message.to_dict` is the identity on
every message whose optional `name` and `tool_call_id` are either absent or
non-empty (scalar and block-list content, all block fields included); the
`Tool` round trip holds unconditionally.  (`ChatResponse`, `Usage` and
`Lineage` have no `from_dict` in the source, so the spec's claim for them
is not expressible.) -/
theorem claim_C8_roundtrip_amended :
    (∀ (α : Type) (m : Message α), m.name ≠ some "" → m.tool_call_id ≠ some "" →
      Message.from_dict (Message.to_dict m) = some m) ∧
    (∀ (α : Type) (t : Tool α), Tool.from_dict (Tool.to_dict t) = t) :=
  ⟨fun _ m hn ht => message_roundtrip m hn ht, fun _ t => tool_roundtrip t⟩

/-- A tool-role message exercising block-list content, a tool-result block,
a name and a tool-call id. -/
def msgFull : Message Unit :=
  { role := .TOOL,
    content := .inr
      [{ type := .TEXT, text := some "result" },
       { type := .TOOL_RESULT, tool_use_id := some "tu_1", tool_result := some () }],
    name := some "search",
    tool_call_id := some "tu_1" }

/-- Witness for the amended C8: the round trip restores a concrete
block-list message and a concrete tool. -/
theorem claim_C8_roundtrip_amended_witness :
    Message.from_dict (Message.to_dict msgFull) = some msgFull ∧
    Tool.from_dict (Tool.to_dict
      ({ name := "search", description := "Search the web", parameters := () } : Tool Unit)) =
      { name := "search", description := "Search the web", parameters := () } := by
  constructor
  · exact claim_C8_roundtrip_amended.1 Unit msgFull (by decide) (by decide)
  · exact claim_C8_roundtrip_amended.2 Unit _

/-! ## Adapter response normalization — `providers/anthropic/adapter.py`
(`_normalize`) and `providers/local/adapter.py` (the response half of
`chat`).  Upstream JSON payloads are structural; the opaque tool-argument
objects are a type parameter. -/

/-- `FinishReason` enum (core/types.py). -/
inductive FinishReason where
  | STOP
  | TOOL_CALLS
  | LENGTH
  | CONTENT_FILTER
  | ERROR
deriving Repr, DecidableEq

/-- Canonical `Usage` (core/types.py), token counts as naturals. -/
structure Usage where
  input_tokens : Nat
  output_tokens : Nat
  total_tokens : Nat
  cache_read_tokens : Option Nat := none
  cache_write_tokens : Option Nat := none
  reasoning_tokens : Option Nat := none
deriving Repr, DecidableEq

/-- Canonical `ToolCall` (core/types.py). -/
structure ToolCall (α : Type) where
  id : String
  name : String
  arguments : α
deriving Repr, DecidableEq

/-- Canonical `ThinkingBlock` (core/types.py). -/
structure ThinkingBlock where
  thinking : String
  signature : Option String := none
deriving Repr, DecidableEq

/-- Canonical `ChatResponse` (core/types.py); lineage and timestamp are
provenance metadata elided from the model. -/
structure ChatResponse (α : Type) where
  id : String
  content : String
  tool_calls : Option (List (ToolCall α)) := none
  thinking : Option (List ThinkingBlock) := none
  model : String := ""
  provider : String := ""
  finish_reason : FinishReason := .STOP
  usage : Option Usage := none
deriving Repr, DecidableEq

/-- `FINISH_MAP` of the Anthropic adapter. -/
def FINISH_MAP (s : String) : Option FinishReason :=
  if s = "end_turn" then some .STOP
  else if s = "stop_sequence" then some .STOP
  else if s = "tool_use" then some .TOOL_CALLS
  else if s = "max_tokens" then some .LENGTH
  else none

/-- A content block of an Anthropic messages response. -/
inductive AnthropicBlock (α : Type) where
  | text (s : String)
  | thinking (s : String) (signature : Option String)
  | toolUse (id : Option String) (name : String) (input : α)
  | other
deriving Repr, DecidableEq

/-- The `usage` object of an Anthropic response (`.get(..., 0)` defaults). -/
structure AnthropicUsage where
  input_tokens : Nat := 0
  output_tokens : Nat := 0
  cache_read_input_tokens : Option Nat := none
  cache_creation_input_tokens : Option Nat := none
deriving Repr, DecidableEq

/-- An Anthropic messages response body. -/
structure AnthropicPayload (α : Type) where
  id : Option String := none
  content : List (AnthropicBlock α) := []
  model : Option String := none
  stop_reason : Option String := none
  usage : AnthropicUsage := {}
deriving Repr, DecidableEq

/-- `AnthropicProvider._normalize`: fold the content blocks into text,
thinking and tool calls; map the stop reason through `FINISH_MAP` with
default STOP.  `genId` stands for the random fallback ids. -/
def anthropicNormalize {α : Type} (genId fallbackModel : String)
    (data : AnthropicPayload α) : ChatResponse α :=
  let acc := data.content.foldl
    (fun (acc : String × List ThinkingBlock × List (ToolCall α)) b =>
      match b with
      | .text s => (acc.1 ++ s, acc.2.1, acc.2.2)
      | .thinking s sig => (acc.1, acc.2.1 ++ [⟨s, sig⟩], acc.2.2)
      | .toolUse bid bname binput =>
        (acc.1, acc.2.1, acc.2.2 ++ [⟨bid.getD genId, bname, binput⟩])
      | .other => acc)
    ("", [], [])
  { id := data.id.getD genId,
    content := acc.1,
    tool_calls := if acc.2.2.isEmpty then none else some acc.2.2,
    thinking := if acc.2.1.isEmpty then none else some acc.2.1,
    model := data.model.getD fallbackModel,
    provider := "anthropic",
    finish_reason := (FINISH_MAP (data.stop_reason.getD "end_turn")).getD .STOP,
    usage := some
      { input_tokens := data.usage.input_tokens,
        output_tokens := data.usage.output_tokens,
        total_tokens := data.usage.input_tokens + data.usage.output_tokens,
        cache_read_tokens := data.usage.cache_read_input_tokens,
        cache_write_tokens := data.usage.cache_creation_input_tokens } }

/-- The decoded arguments of a local-provider tool call: a parsed object or
the raw-string wrapper the adapter builds on a JSON parse failure. -/
inductive LocalArgs (α : Type) where
  | parsed (a : α)
  | raw (s : String)
deriving Repr, DecidableEq

/-- A raw tool call of an OpenAI-compatible response: arguments arrive as a
decoded object or as a JSON string. -/
structure LocalToolCallRaw (α : Type) where
  id : Option String := none
  name : String
  arguments : Sum α String
deriving Repr, DecidableEq

/-- The assistant message of the first choice. -/
structure LocalMessage (α : Type) where
  content : Option String := none
  tool_calls : Option (List (LocalToolCallRaw α)) := none
deriving Repr, DecidableEq

/-- The first choice of an OpenAI-compatible response. -/
structure LocalChoice (α : Type) where
  message : LocalMessage α
  finish_reason : Option String := none
deriving Repr, DecidableEq

/-- The `usage` object (`.get(..., 0)` defaults). -/
structure LocalUsage where
  prompt_tokens : Nat := 0
  completion_tokens : Nat := 0
  total_tokens : Nat := 0
deriving Repr, DecidableEq

/-- An OpenAI-compatible chat response body (`data["choices"][0]`). -/
structure LocalChatData (α : Type) where
  id : Option String := none
  model : Option String := none
  choice : LocalChoice α
  usage : LocalUsage := {}
deriving Repr, DecidableEq

/-- `json.loads` on string arguments; a parse failure wraps the raw
string. -/
def localDecodeArgs {α : Type} (parseJson : String → Option α) :
    Sum α String → LocalArgs α
  | .inl a => .parsed a
  | .inr s =>
    match parseJson s with
    | some a => .parsed a
    | none => .raw s

/-- The local adapter's `fr_map` with its `.get(..., STOP)` default. -/
def localFrMap (s : String) : FinishReason :=
  if s = "stop" then .STOP
  else if s = "tool_calls" then .TOOL_CALLS
  else if s = "length" then .LENGTH
  else .STOP

/-- The response half of `LocalProvider.chat` (lines 126-160): extract tool
calls when present and truthy, decode their arguments, and map the upstream
finish reason. -/
def localNormalize {α : Type} (parseJson : String → Option α)
    (providerName fallbackModel : String) (data : LocalChatData α) :
    ChatResponse (LocalArgs α) :=
  let msg := data.choice.message
  let tool_calls : Option (List (ToolCall (LocalArgs α))) :=
    match msg.tool_calls with
    | some tcs =>
      if tcs.isEmpty then none
      else some (tcs.map (fun tc =>
        ⟨tc.id.getD "", tc.name, localDecodeArgs parseJson tc.arguments⟩))
    | none => none
  { id := data.id.getD "",
    content := msg.content.getD "",
    tool_calls := tool_calls,
    model := data.model.getD fallbackModel,
    provider := providerName,
    finish_reason := localFrMap (data.choice.finish_reason.getD "stop"),
    usage := some
      { input_tokens := data.usage.prompt_tokens,
        output_tokens := data.usage.completion_tokens,
        total_tokens := data.usage.total_tokens } }

/-! ## Streaming -/

/-- A canonical stream chunk (the frame kinds `_stream_chunk` produces). -/
inductive StreamChunk where
  | content (s : String)
  | thinking (s : String)
  | start (id : Option String) (model : Option String)
  | stop (finish_reason : String)
deriving Repr, DecidableEq

/-- A frame the adapter generator yields: a `data:` chunk line or the
`[DONE]` sentinel. -/
inductive Frame where
  | chunk (c : StreamChunk)
  | done
deriving Repr, DecidableEq

/-- The delta of an Anthropic `content_block_delta` event. -/
inductive AnthropicDelta where
  | textDelta (s : String)
  | thinkingDelta (s : String)
  | otherDelta
deriving Repr, DecidableEq

/-- An Anthropic streaming event (after JSON decoding). -/
inductive AnthropicStreamEvent where
  | contentBlockDelta (d : AnthropicDelta)
  | messageStart (id : Option String) (model : Option String)
  | messageStop
  | other
deriving Repr, DecidableEq

/-- `AnthropicProvider._stream_chunk`. -/
def anthropicStreamChunk : AnthropicStreamEvent → Option StreamChunk
  | .contentBlockDelta (.textDelta s) => some (.content s)
  | .contentBlockDelta (.thinkingDelta s) => some (.thinking s)
  | .contentBlockDelta .otherDelta => none
  | .messageStart id model => some (.start id model)
  | .messageStop => some (.stop "stop")
  | .other => none

/-- The payload of one upstream SSE `data:` line: the literal `[DONE]`, a
decodable event, or undecodable JSON. -/
inductive RawData where
  | doneMark
  | valid (evt : AnthropicStreamEvent)
  | invalid
deriving Repr, DecidableEq

/-- One upstream line: a `data:` line or anything else. -/
inductive SSELine where
  | dataLine (raw : RawData)
  | otherLine
deriving Repr, DecidableEq

/-- The line loop of `AnthropicProvider.chat_stream`: skip non-data lines,
`break` on `[DONE]`, skip undecodable JSON, emit the mapped chunk when
`_stream_chunk` yields one. -/
def anthropicProcessLines : List SSELine → List Frame
  | [] => []
  | .otherLine :: rest => anthropicProcessLines rest
  | .dataLine .doneMark :: _ => []
  | .dataLine .invalid :: rest => anthropicProcessLines rest
  | .dataLine (.valid e) :: rest =>
    match anthropicStreamChunk e with
    | some c => .chunk c :: anthropicProcessLines rest
    | none => anthropicProcessLines rest

/-- `BaseProvider._handle_error` raises exactly for status ≥ 400 (returning
the status that travels in the raised `ProviderError`). -/
def handleErrorOpt (status : Nat) : Option Nat :=
  if 400 ≤ status then some status else none

/-- `AnthropicProvider.chat_stream` as a whole: the frames the generator
yields, plus the error it raises (which aborts the generator before any
frame, including the final sentinel). -/
def anthropicChatStream (status : Nat) (lines : List SSELine) :
    List Frame × Option Nat :=
  if status ≠ 200 then
    match handleErrorOpt status with
    | some err => ([], some err)
    | none => (anthropicProcessLines lines ++ [.done], none)
  else (anthropicProcessLines lines ++ [.done], none)

/-- Python `str.strip()` on ASCII whitespace. -/
def strTrim (s : String) : String :=
  String.mk
    (((s.toList.dropWhile (fun c => c.isWhitespace)).reverse.dropWhile
      (fun c => c.isWhitespace)).reverse)

/-- A frame of the local adapter's stream: the raw upstream payload passed
through, or the sentinel. -/
inductive LocalFrame where
  | raw (s : String)
  | done
deriving Repr, DecidableEq

/-- One upstream line for the local adapter. -/
inductive LocalLine where
  | dataLine (raw : String)
  | otherLine
deriving Repr, DecidableEq

/-- The line loop of `LocalProvider.chat_stream`: `break` on a stripped
`[DONE]`, otherwise forward the raw payload. -/
def localProcessLines : List LocalLine → List LocalFrame
  | [] => []
  | .otherLine :: rest => localProcessLines rest
  | .dataLine raw :: rest =>
    if strTrim raw = "[DONE]" then []
    else .raw raw :: localProcessLines rest

/-- `LocalProvider.chat_stream` as a whole (its error check is
`status_code >= 400`). -/
def localChatStream (status : Nat) (lines : List LocalLine) :
    List LocalFrame × Option Nat :=
  if 400 ≤ status then
    match handleErrorOpt status with
    | some err => ([], some err)
    | none => (localProcessLines lines ++ [.done], none)
  else (localProcessLines lines ++ [.done], none)

/-! ## Finish-reason and streaming lemmas -/

theorem anthropic_finish_iff {α : Type} (genId fm : String) (data : AnthropicPayload α) :
    (anthropicNormalize genId fm data).finish_reason = .TOOL_CALLS ↔
      data.stop_reason = some "tool_use" := by
  unfold anthropicNormalize
  dsimp only
  rcases hs : data.stop_reason with _ | s
  · simp [FINISH_MAP]
  · simp only [Option.getD_some]
    unfold FINISH_MAP
    split_ifs with h1 h2 h3 h4 <;> simp_all

theorem local_finish_iff {α : Type} (parseJson : String → Option α)
    (pname fm : String) (data : LocalChatData α) :
    (localNormalize parseJson pname fm data).finish_reason = .TOOL_CALLS ↔
      data.choice.finish_reason = some "tool_calls" := by
  unfold localNormalize
  dsimp only
  rcases hs : data.choice.finish_reason with _ | s
  · simp [localFrMap]
  · simp only [Option.getD_some]
    unfold localFrMap
    split_ifs with h1 h2 h3 <;> simp_all

/-- An Anthropic payload carrying a tool-use block while the upstream
reports `stop_reason = "end_turn"`. -/
def payloadC7 : AnthropicPayload Unit :=
  { content := [.toolUse (some "tu1") "search" ()],
    stop_reason := some "end_turn" }

/-- Counterexample for C7: the Anthropic adapter derives `finish_reason`
solely from the upstream stop reason — a response whose content holds a
tool-use block but whose `stop_reason` is `end_turn` normalizes to
non-empty `tool_calls` with `finish_reason = stop`, not `tool_calls`. -/
theorem claim_C7_finish_coercion_counterexample :
    (anthropicNormalize "gen" "claude" payloadC7).tool_calls =
      some [⟨"tu1", "search", ()⟩] ∧
    (anthropicNormalize "gen" "claude" payloadC7).finish_reason = .STOP ∧
    (anthropicNormalize "gen" "claude" payloadC7).finish_reason ≠ .TOOL_CALLS :=
  ⟨by decide, by decide, by decide⟩

/-! ### Google adapter normalization — `providers/google/adapter.py`,
`GoogleProvider._normalize` (the finish-reason half, which does coerce). -/

/-- Python `s.upper()` (ASCII suffices for the finish-reason keys). -/
def strToUpper (s : String) : String :=
  String.mk (s.toList.map Char.toUpper)

/-- The Google adapter's `FINISH_MAP` loop: the first key that occurs as a
substring of the upper-cased finish string wins, `else` STOP. -/
def googleFinishLookup (finish_str : String) : FinishReason :=
  let up := strToUpper finish_str
  if strContains up "STOP" then .STOP
  else if strContains up "MAX_TOKENS" then .LENGTH
  else if strContains up "SAFETY" then .CONTENT_FILTER
  else .STOP

/-- One SDK `Part` of a Gemini candidate, by its first non-None attribute
(`text`, `function_call`, `executable_code`, `code_execution_result`). -/
inductive GooglePart (α : Type) where
  | text (s : String)
  | functionCall (name : String) (args : α)
  | executableCode (code : String)
  | codeExecutionResult (output : String)
  | other
deriving Repr, DecidableEq

/-- The first candidate of a Gemini response. -/
structure GoogleCandidate (α : Type) where
  parts : List (GooglePart α) := []
  finish_reason : Option String := none
deriving Repr, DecidableEq

/-- The `usage_metadata` object of a Gemini response. -/
structure GoogleUsageMeta where
  prompt_token_count : Nat := 0
  candidates_token_count : Nat := 0
  total_token_count : Nat := 0
  cached_content_token_count : Option Nat := none
deriving Repr, DecidableEq

/-- A Gemini SDK response (`candidates`, `usage_metadata`). -/
structure GoogleResponsePayload (α : Type) where
  candidates : List (GoogleCandidate α) := []
  usage_metadata : Option GoogleUsageMeta := none
deriving Repr, DecidableEq

/-- The part loop of `GoogleProvider._normalize`: accumulate text (code
parts rendered into fenced text) and tool calls; `genId` stands for the
fresh per-call ids. -/
def googleCollect {α : Type} (genId : Nat → String)
    (parts : List (GooglePart α)) : String × List (ToolCall α) :=
  parts.foldl
    (fun (acc : String × List (ToolCall α)) p =>
      match p with
      | .text s => (acc.1 ++ s, acc.2)
      | .functionCall nm args =>
        (acc.1, acc.2 ++ [⟨genId acc.2.length, nm, args⟩])
      | .executableCode code =>
        (acc.1 ++ "\n```python\n" ++ code ++ "\n```\n", acc.2)
      | .codeExecutionResult out =>
        (acc.1 ++ "\n[Output]\n" ++ out ++ "\n", acc.2)
      | .other => acc)
    ("", [])

/-- `GoogleProvider._normalize` (google/adapter.py lines 207-284): raise on
no candidates, collect the first candidate's parts, map the finish string
through the `FINISH_MAP` loop, then coerce to TOOL_CALLS whenever tool
calls were collected.  `respId` stands for the generated response id. -/
def googleNormalize {α : Type} (genId : Nat → String) (respId model : String)
    (resp : GoogleResponsePayload α) : Except String (ChatResponse α) :=
  match resp.candidates with
  | [] => .error "No candidates in response"
  | candidate :: _ =>
    let acc := googleCollect genId candidate.parts
    -- `str(raw_finish) if raw_finish else "STOP"` (a falsy reason is STOP)
    let finish_str :=
      match candidate.finish_reason with
      | some s => if s = "" then "STOP" else s
      | none => "STOP"
    let finish0 := googleFinishLookup finish_str
    let finish := if acc.2.isEmpty then finish0 else .TOOL_CALLS
    .ok
      { id := respId,
        content := acc.1,
        tool_calls := if acc.2.isEmpty then none else some acc.2,
        model := model,
        provider := "google",
        finish_reason := finish,
        usage := some
          (match resp.usage_metadata with
           | some u =>
             { input_tokens := u.prompt_token_count,
               output_tokens := u.candidates_token_count,
               total_tokens := u.total_token_count,
               cache_read_tokens := u.cached_content_token_count }
           | none => { input_tokens := 0, output_tokens := 0, total_tokens := 0 }) }

theorem google_finish_coercion {α : Type} (genId : Nat → String)
    (respId model : String) (resp : GoogleResponsePayload α) (r : ChatResponse α)
    (hok : googleNormalize genId respId model resp = .ok r)
    (htc : r.tool_calls ≠ none) :
    r.finish_reason = .TOOL_CALLS := by
  unfold googleNormalize at hok
  rcases hc : resp.candidates with _ | ⟨c, rest⟩
  · rw [hc] at hok; exact absurd hok (by simp)
  · rw [hc] at hok
    dsimp only at hok
    simp only [Except.ok.injEq] at hok
    subst hok
    by_cases he : (googleCollect genId c.parts).2.isEmpty = true
    · exact absurd (by simp [he]) htc
    · simp [he]

/-- C7 (amended): whether `finish_reason` is coerced from tool-call
presence varies by adapter.  The Anthropic and Local adapters translate
the upstream finish reason through their mapping tables and never coerce:
their normalized `finish_reason` is `tool_calls` exactly when the upstream
reported `tool_use` (Anthropic) or `tool_calls` (Local), so their
responses may carry non-empty `tool_calls` with another `finish_reason`.
The Google adapter does coerce: any normalized response with non-empty
`tool_calls` has `finish_reason = tool_calls` regardless of the reported
reason. -/
theorem claim_C7_finish_reason_mapping :
    (∀ (α : Type) (genId fm : String) (data : AnthropicPayload α),
      (anthropicNormalize genId fm data).finish_reason = .TOOL_CALLS ↔
        data.stop_reason = some "tool_use") ∧
    (∀ (α : Type) (parseJson : String → Option α) (pname fm : String)
       (data : LocalChatData α),
      (localNormalize parseJson pname fm data).finish_reason = .TOOL_CALLS ↔
        data.choice.finish_reason = some "tool_calls") ∧
    (∀ (α : Type) (genId : Nat → String) (respId model : String)
       (resp : GoogleResponsePayload α) (r : ChatResponse α),
      googleNormalize genId respId model resp = .ok r →
      r.tool_calls ≠ none →
      r.finish_reason = .TOOL_CALLS) :=
  ⟨fun _ => anthropic_finish_iff, fun _ => local_finish_iff,
   fun _ => google_finish_coercion⟩

/-- A Gemini response carrying a function call while the SDK reports
finish reason STOP. -/
def googleRespC7 : GoogleResponsePayload Unit :=
  { candidates := [{ parts := [.functionCall "search" ()],
                     finish_reason := some "STOP" }] }

/-- The normalization of `googleRespC7`: the collected tool call with the
finish reason coerced to TOOL_CALLS. -/
def googleRespC7Normalized : ChatResponse Unit :=
  { id := "gid",
    content := "",
    tool_calls := some [⟨"call_0", "search", ()⟩],
    model := "gemini-3-flash-preview",
    provider := "google",
    finish_reason := .TOOL_CALLS,
    usage := some { input_tokens := 0, output_tokens := 0, total_tokens := 0 } }

/-- Witness for the amended C7: the Anthropic mapping evaluated both ways
on concrete payloads (tool_use maps to tool_calls; end_turn with a tool
block does not), and the Google coercion on a concrete function-call
response whose reported reason is STOP. -/
theorem claim_C7_finish_reason_mapping_witness :
    (anthropicNormalize "gen" "claude"
      ({ content := [.toolUse (some "tu1") "search" ()],
         stop_reason := some "tool_use" } : AnthropicPayload Unit)).finish_reason =
      .TOOL_CALLS ∧
    (anthropicNormalize "gen" "claude" payloadC7).finish_reason ≠ .TOOL_CALLS ∧
    googleRespC7Normalized.finish_reason = .TOOL_CALLS := by
  refine ⟨?_, ?_, ?_⟩
  · exact (claim_C7_finish_reason_mapping.1 Unit "gen" "claude" _).mpr (by decide)
  · intro heq
    have h := (claim_C7_finish_reason_mapping.1 Unit "gen" "claude" payloadC7).mp heq
    exact absurd h (by decide)
  · exact claim_C7_finish_reason_mapping.2.2 Unit (fun n => "call_" ++ toString n)
      "gid" "gemini-3-flash-preview" googleRespC7 googleRespC7Normalized
      rfl (by decide)

theorem getLast?_append_single {α : Type} (l : List α) (a : α) :
    (l ++ [a]).getLast? = some a := by
  rw [List.getLast?_append_cons]; rfl

theorem anthropic_stream_done (lines : List SSELine) :
    (anthropicChatStream 200 lines).1.getLast? = some .done ∧
    (anthropicChatStream 200 lines).2 = none := by
  unfold anthropicChatStream
  rw [if_neg (by decide : ¬((200 : Nat) ≠ 200))]
  exact ⟨getLast?_append_single _ _, rfl⟩

theorem anthropic_stream_error (status : Nat) (lines : List SSELine)
    (h : 400 ≤ status) :
    anthropicChatStream status lines = ([], some status) := by
  unfold anthropicChatStream handleErrorOpt
  rw [if_pos (by omega : status ≠ 200), if_pos h]

theorem local_stream_done (lines : List LocalLine) :
    (localChatStream 200 lines).1.getLast? = some .done ∧
    (localChatStream 200 lines).2 = none := by
  unfold localChatStream
  rw [if_neg (by decide : ¬((400 : Nat) ≤ 200))]
  exact ⟨getLast?_append_single _ _, rfl⟩

theorem local_stream_error (status : Nat) (lines : List LocalLine)
    (h : 400 ≤ status) :
    localChatStream status lines = ([], some status) := by
  unfold localChatStream handleErrorOpt
  rw [if_pos h, if_pos h]

/-- Counterexample for C9: on an upstream 502 the Anthropic stream
generator raises before yielding anything — the emitted frame sequence is
empty, so it neither ends with the `[DONE]` sentinel nor contains a stop
frame with `finish_reason = error`. -/
theorem claim_C9_stream_counterexample :
    (anthropicChatStream 502 []).1 = [] ∧
    (anthropicChatStream 502 []).1.getLast? ≠ some .done ∧
    (anthropicChatStream 502 []).2 = some 502 :=
  ⟨by decide, by decide, by decide⟩

/-- C9 (amended): under normal completion (upstream 200) every Anthropic
and Local adapter stream ends with the `[DONE]` sentinel and raises
nothing; on an upstream error status (≥ 400) the generator raises a
`ProviderError` before emitting any frame — no error stop frame and no
sentinel are produced. -/
theorem claim_C9_stream_termination :
    (∀ lines : List SSELine,
      (anthropicChatStream 200 lines).1.getLast? = some .done ∧
      (anthropicChatStream 200 lines).2 = none) ∧
    (∀ (status : Nat) (lines : List SSELine), 400 ≤ status →
      anthropicChatStream status lines = ([], some status)) ∧
    (∀ lines : List LocalLine,
      (localChatStream 200 lines).1.getLast? = some .done ∧
      (localChatStream 200 lines).2 = none) ∧
    (∀ (status : Nat) (lines : List LocalLine), 400 ≤ status →
      localChatStream status lines = ([], some status)) :=
  ⟨anthropic_stream_done, anthropic_stream_error,
   local_stream_done, local_stream_error⟩

/-- Witness for the amended C9: a concrete successful stream ends with the
sentinel, and concrete failing streams raise with no frames. -/
theorem claim_C9_stream_termination_witness :
    (anthropicChatStream 200
      [.dataLine (.valid (.contentBlockDelta (.textDelta "hi"))),
       .dataLine .doneMark]).1.getLast? = some .done ∧
    anthropicChatStream 502 [] = ([], some 502) ∧
    (localChatStream 200 [.dataLine "chunk"]).1.getLast? = some .done ∧
    localChatStream 404 [] = ([], some 404) := by
  refine ⟨?_, ?_, ?_, ?_⟩
  · exact (claim_C9_stream_termination.1 _).1
  · exact claim_C9_stream_termination.2.1 502 [] (by decide)
  · exact (claim_C9_stream_termination.2.2.1 _).1
  · exact claim_C9_stream_termination.2.2.2 404 [] (by decide)

end Aratta
